import Mathlib

/-!
Shallow embedding of `src/Fault/Source/ARM_FaultStorage.c` (CMSIS-View fault
storage component).

Machine integers are modelled as `Nat` with explicit `% 2 ^ 32` where a
32-bit operation can overflow.  Struct memory is modelled field-wise; the
byte image used by the CRC computation is the little-endian serialization of
the 32-bit fields (the C struct has only `uint32_t` members, ARM is
little-endian, so there is no padding).
-/

namespace ARMFaultStorage

/-! ## Constants (`ARM_FaultStorage.c`, lines 56, 71-73) -/

def ARM_FAULT_MAGIC_NUMBER : Nat := 0x52746C46

def ARM_FAULT_CRC32_INIT_VAL : Nat := 0xFFFFFFFF

def ARM_FAULT_CRC32_POLYNOM : Nat := 0x04C11DB7

def ARM_FAULT_ASC_INTEGRITY_SIG : Nat := 0xFEFA125A

/-! ## CRC-32 engine (`CalcCRC32`, lines 643-665)

The C function processes `data_len` bytes starting at `data_ptr`, MSB-first.
Memory is modelled as a function from byte address to byte value; a read
masks with `% 256` (a `uint8_t` load).  The inner 8-iteration `for` loop is
split out as `crcShift` (one shift/conditional-xor step) and `crcBits`
(`i` such steps). -/

/-- One step of the inner loop body (lines 653-658): test bit 31, shift left
by one in 32 bits, conditionally xor the polynomial. -/
def crcShift (crc32 polynom : Nat) : Nat :=
  if crc32 &&& 0x80000000 ≠ 0 then
    ((crc32 <<< 1) % 4294967296) ^^^ polynom
  else
    (crc32 <<< 1) % 4294967296

/-- The inner `for (i = 8U; i != 0U; i--)` loop (lines 652-659). -/
def crcBits : Nat → Nat → Nat → Nat
  | 0, crc32, _ => crc32
  | i + 1, crc32, polynom => crcBits i (crcShift crc32 polynom) polynom

/-- `CalcCRC32` (lines 643-665): while `data_len != 0`, xor the next byte
(shifted into the top byte) into the accumulator, run 8 bit steps, advance
the pointer, decrement the length. -/
def CalcCRC32 (init_val : Nat) (mem : Nat → Nat) (data_ptr data_len polynom : Nat) :
    Nat :=
  match data_len with
  | 0 => init_val
  | Nat.succ n =>
      CalcCRC32 (crcBits 8 (init_val ^^^ ((mem data_ptr % 256) <<< 24)) polynom)
        mem (data_ptr + 1) n polynom

/-- List form of the same computation, used to reason about the record's byte
image: `crcL init l poly` equals `CalcCRC32` run over the `l.length` bytes
of `l` (lemma `CalcCRC32_eq_crcL`). -/
def crcL (init_val : Nat) (data : List Nat) (polynom : Nat) : Nat :=
  match data with
  | [] => init_val
  | b :: rest => crcL (crcBits 8 (init_val ^^^ ((b % 256) <<< 24)) polynom) rest polynom

/-! ## The persisted fault record

Modelled from the spec: the struct type `ARM_FaultInfo_t` is declared in
`ARM_Fault.h`, which is not under `src/`; the field list and order follow
spec section 3 and section 6 (`magic_number`, `crc32`, `count`, `info`,
register group, live-context group, limit registers, fault-status groups,
extended-context integrity marker), with the in-group order fixed by the
contiguous `stm` stores of `ARM_FaultSave`.  All members are `uint32_t`. -/

structure ARM_FaultInfo_t where
  magic_number : Nat
  crc32 : Nat
  count : Nat
  info : Nat
  R0 : Nat
  R1 : Nat
  R2 : Nat
  R3 : Nat
  R4 : Nat
  R5 : Nat
  R6 : Nat
  R7 : Nat
  R8 : Nat
  R9 : Nat
  R10 : Nat
  R11 : Nat
  R12 : Nat
  LR : Nat
  ReturnAddress : Nat
  xPSR : Nat
  EXC_xPSR : Nat
  EXC_RETURN : Nat
  MSP : Nat
  PSP : Nat
  MSPLIM : Nat
  PSPLIM : Nat
  CFSR : Nat
  HFSR : Nat
  DFSR : Nat
  MMFAR : Nat
  BFAR : Nat
  AFSR : Nat
  SFSR : Nat
  SFAR : Nat
  RFSR : Nat
  IntegritySignature : Nat
  deriving DecidableEq

/-- The all-zero record (result of `memset(&ARM_FaultInfo, 0, ...)`). -/
def zeroRecord : ARM_FaultInfo_t :=
  ⟨0, 0, 0, 0, 0, 0, 0, 0, 0, 0, 0, 0, 0, 0, 0, 0, 0, 0,
   0, 0, 0, 0, 0, 0, 0, 0, 0, 0, 0, 0, 0, 0, 0, 0, 0, 0⟩

/-- The 32-bit words of the record from `count` to the end of the record, in
declaration order: every field except `magic_number` and `crc32`.  This is
the range `CalcCRC32` is run over (`&ARM_FaultInfo.count`,
`sizeof(ARM_FaultInfo) - (sizeof(magic_number) + sizeof(crc32))`). -/
def payloadWords (r : ARM_FaultInfo_t) : List Nat :=
  [r.count, r.info,
   r.R0, r.R1, r.R2, r.R3, r.R4, r.R5, r.R6, r.R7, r.R8, r.R9, r.R10, r.R11,
   r.R12, r.LR, r.ReturnAddress, r.xPSR,
   r.EXC_xPSR, r.EXC_RETURN, r.MSP, r.PSP, r.MSPLIM, r.PSPLIM,
   r.CFSR, r.HFSR, r.DFSR, r.MMFAR, r.BFAR, r.AFSR,
   r.SFSR, r.SFAR, r.RFSR, r.IntegritySignature]

/-- Little-endian byte image of one 32-bit word. -/
def wordBytes (w : Nat) : List Nat :=
  [w % 256, (w >>> 8) % 256, (w >>> 16) % 256, (w >>> 24) % 256]

def bytesOfWords : List Nat → List Nat
  | [] => []
  | w :: ws => wordBytes w ++ bytesOfWords ws

/-- Byte image of the CRC-covered range of the record. -/
def payloadBytes (r : ARM_FaultInfo_t) : List Nat :=
  bytesOfWords (payloadWords r)

/-- `sizeof(ARM_FaultInfo) - (sizeof(magic_number) + sizeof(crc32))`:
34 words of 4 bytes. -/
def payloadLen : Nat := 136

/-! ## `ARM_FaultClear` (lines 92-94) and `ARM_FaultOccurred` (lines 101-120) -/

/-- `ARM_FaultClear`: `memset(&ARM_FaultInfo, 0, sizeof(ARM_FaultInfo))`.
The record is a global; state passing is explicit here. -/
def ARM_FaultClear (_ : ARM_FaultInfo_t) : ARM_FaultInfo_t := zeroRecord

/-- The CRC-32 recomputed by `ARM_FaultOccurred` (lines 111-114): initial
value `ARM_FAULT_CRC32_INIT_VAL`, the byte range from `&ARM_FaultInfo.count`
of `sizeof(ARM_FaultInfo) - (sizeof(magic_number) + sizeof(crc32))` bytes,
polynomial `ARM_FAULT_CRC32_POLYNOM`. -/
def recordCRC (r : ARM_FaultInfo_t) : Nat :=
  CalcCRC32 ARM_FAULT_CRC32_INIT_VAL (fun i => (payloadBytes r).getD i 0) 0
    payloadLen ARM_FAULT_CRC32_POLYNOM

/-- `ARM_FaultOccurred` (lines 101-120), mirroring the sequential
`fault_info_valid` flag logic of the C code. -/
def ARM_FaultOccurred (r : ARM_FaultInfo_t) : Nat :=
  let fault_info_valid : Nat := 1
  let fault_info_valid : Nat :=
    if r.magic_number ≠ ARM_FAULT_MAGIC_NUMBER then 0 else fault_info_valid
  let fault_info_valid : Nat :=
    if fault_info_valid ≠ 0 then
      if r.crc32 ≠ recordCRC r then 0
      else fault_info_valid
    else fault_info_valid
  fault_info_valid

/-! ## Build-time configuration

The preprocessor symbols `ARM_FAULT_TZ_SECURE`, `ARM_FAULT_FAULT_REGS_EXIST`,
`ARM_FAULT_ARCH_ARMV8x_M`, ... select one concrete capture routine per
target profile (spec section 9); they are modelled as a configuration
record so that every profile is covered at once.  `stack_err_msk` stands for
`SCB_CFSR_Stack_Err_Msk` (lines 61-67), built from CMSIS register-map masks
that are outside this repository (spec: fixed external register map). -/

structure ARM_FaultConfig where
  tz_secure : Bool
  tz_enabled : Bool
  fault_regs_exist : Bool
  arch_armv8x_m : Bool
  arch_armv8_m_base : Bool
  arch_armv8x_m_main : Bool
  arch_armv8_1m_main : Bool
  ver_major : Nat
  ver_minor : Nat
  stack_err_msk : Nat

/-- CPU state visible to `ARM_FaultSave` at entry: the link register holds
the EXC_RETURN code, the special registers are readable via `mrs`, the
memory-mapped fault-status registers are modelled directly as values (with
their non-secure aliases), and `stackMem a` is the 32-bit word at byte
address `a` of the stacked exception frame. -/
structure CpuState where
  lr : Nat
  xpsr : Nat
  msp : Nat
  psp : Nat
  msp_ns : Nat
  psp_ns : Nat
  msplim : Nat
  psplim : Nat
  msplim_ns : Nat
  psplim_ns : Nat
  r4 : Nat
  r5 : Nat
  r6 : Nat
  r7 : Nat
  r8 : Nat
  r9 : Nat
  r10 : Nat
  r11 : Nat
  cfsr : Nat
  cfsr_ns : Nat
  hfsr : Nat
  hfsr_ns : Nat
  dfsr : Nat
  dfsr_ns : Nat
  mmfar : Nat
  mmfar_ns : Nat
  bfar : Nat
  bfar_ns : Nat
  afsr : Nat
  afsr_ns : Nat
  sfsr : Nat
  sfar : Nat
  rfsr : Nat
  rfsr_ns : Nat
  stackMem : Nat → Nat

def bit (b : Bool) : Nat := if b then 1 else 0

/-- The `info` value stored at lines 159-160 (template operand `info_val`,
lines 384-389): version fields plus the static capability bits. -/
def infoVal (cfg : ARM_FaultConfig) : Nat :=
  cfg.ver_minor |||
  (cfg.ver_major <<< 8) |||
  (bit cfg.fault_regs_exist <<< 16) |||
  (bit cfg.arch_armv8x_m_main <<< 17) |||
  (bit cfg.tz_enabled <<< 18) |||
  (bit cfg.tz_secure <<< 19)

/-- Stacking-context resolution (lines 197-232): decode EXC_RETURN bit [2]
(SPSEL) to choose MSP or PSP; on a secure-world build additionally decode
bit [6] (S): when it is 0 the non-secure alias of the chosen stack pointer
is read and the non-secure-alias flag (R7 bit [0]) is set.  Returns
(`R6` = stacked-frame base, `R7 bit [0]` = non-secure-alias flag). -/
def resolveStack (cfg : ARM_FaultConfig) (cpu : CpuState) : Nat × Bool :=
  if cpu.lr.testBit 2 then
    -- psp_used
    if cfg.tz_secure then
      if cpu.lr.testBit 6 then (cpu.psp, false) else (cpu.psp_ns, true)
    else (cpu.psp, false)
  else
    -- msp_used
    if cfg.tz_secure then
      if cpu.lr.testBit 6 then (cpu.msp, false) else (cpu.msp_ns, true)
    else (cpu.msp, false)

/-- Stack-validity determination (lines 247-280): the stack information is
invalid (R7 bit [1] set) when the resolved stack pointer is 0, or — when
fault registers exist — when the (possibly non-secure-alias) CFSR has any
stacking-error bit set. -/
def stackInfoInvalid (cfg : ARM_FaultConfig) (cpu : CpuState)
    (base : Nat) (nsAlias : Bool) : Bool :=
  if base = 0 then true
  else if cfg.fault_regs_exist then
    ((if nsAlias then cpu.cfsr_ns else cpu.cfsr) &&& cfg.stack_err_msk) ≠ 0
  else false

/-! ## `ARM_FaultSave` as a sequence of record-state transformers

Each `step...` definition covers one store section of the routine, in
program order.  The registers R6 (frame base) and R7 (flags) computed in
lines 197-280 are passed explicitly. -/

/-- Lines 138-156: `count` is read before the wipe and `count + 1` is stored
after it (`adds` is a 32-bit addition). -/
def stepCount (oldCount : Nat) (r : ARM_FaultInfo_t) : ARM_FaultInfo_t :=
  { r with count := (oldCount + 1) % 4294967296 }

/-- Lines 158-160: store the version/capability word into `info`. -/
def stepInfo (cfg : ARM_FaultConfig) (r : ARM_FaultInfo_t) : ARM_FaultInfo_t :=
  { r with info := infoVal cfg }

/-- Lines 162-170: store the current (live) R4 .. R11. -/
def stepRegs (cpu : CpuState) (r : ARM_FaultInfo_t) : ARM_FaultInfo_t :=
  { r with R4 := cpu.r4, R5 := cpu.r5, R6 := cpu.r6, R7 := cpu.r7,
           R8 := cpu.r8, R9 := cpu.r9, R10 := cpu.r10, R11 := cpu.r11 }

/-- Lines 234-245 (secure-world build only): OR the `tz_fault_mode` bit
(bit 20) into `info` when the non-secure-alias flag is clear, i.e. when the
fault happened in the Secure World. -/
def stepTzFaultMode (cfg : ARM_FaultConfig) (nsAlias : Bool)
    (r : ARM_FaultInfo_t) : ARM_FaultInfo_t :=
  if cfg.tz_secure ∧ ¬nsAlias then { r with info := r.info ||| (1 <<< 20) } else r

/-- Lines 289-307: the additional state context (Armv8/8.1-M with
EXC_RETURN bit [5] (DCRS) = 0): copy the integrity signature and the
stacked R4 .. R11, and advance the frame base past the 10-word block.
Returns the updated record and the new frame base. -/
def stepAdditionalContext (cfg : ARM_FaultConfig) (cpu : CpuState)
    (base : Nat) (r : ARM_FaultInfo_t) : ARM_FaultInfo_t × Nat :=
  if cfg.arch_armv8x_m ∧ ¬cpu.lr.testBit 5 then
    ({ r with IntegritySignature := cpu.stackMem base,
              R4 := cpu.stackMem (base + 8), R5 := cpu.stackMem (base + 12),
              R6 := cpu.stackMem (base + 16), R7 := cpu.stackMem (base + 20),
              R8 := cpu.stackMem (base + 24), R9 := cpu.stackMem (base + 28),
              R10 := cpu.stackMem (base + 32), R11 := cpu.stackMem (base + 36) },
     base + 40)
  else (r, base)

/-- Lines 282-326: if the stack information is valid, copy the stacked
context: the additional state context first when present, then the basic
frame (R0 .. R3, R12, LR, ReturnAddress, xPSR), and OR the `state_context`
bit (bit 21) into `info`.  If the stack is invalid the whole section is
skipped. -/
def stepStateContext (cfg : ARM_FaultConfig) (cpu : CpuState)
    (invalid : Bool) (base : Nat) (r : ARM_FaultInfo_t) : ARM_FaultInfo_t :=
  if invalid then r
  else
    let p := stepAdditionalContext cfg cpu base r
    { p.1 with R0 := cpu.stackMem p.2, R1 := cpu.stackMem (p.2 + 4),
               R2 := cpu.stackMem (p.2 + 8), R3 := cpu.stackMem (p.2 + 12),
               R12 := cpu.stackMem (p.2 + 16), LR := cpu.stackMem (p.2 + 20),
               ReturnAddress := cpu.stackMem (p.2 + 24),
               xPSR := cpu.stackMem (p.2 + 28),
               info := p.1.info ||| (1 <<< 21) }

/-- Lines 328-344: unconditionally store the current xPSR, the EXC_RETURN
code and both stack pointers (non-secure aliases when the flag is set). -/
def stepLiveContext (cfg : ARM_FaultConfig) (cpu : CpuState) (nsAlias : Bool)
    (r : ARM_FaultInfo_t) : ARM_FaultInfo_t :=
  if cfg.tz_secure ∧ nsAlias then
    { r with EXC_xPSR := cpu.xpsr, EXC_RETURN := cpu.lr,
             MSP := cpu.msp_ns, PSP := cpu.psp_ns }
  else
    { r with EXC_xPSR := cpu.xpsr, EXC_RETURN := cpu.lr,
             MSP := cpu.msp, PSP := cpu.psp }

/-- Lines 346-375 (Armv8/8.1-M only): store MSPLIM/PSPLIM (or their
non-secure aliases) and OR the `limit_regs` bit (bit 22) into `info`;
on Armv8-M Baseline with the non-secure-alias flag set the section is
skipped entirely (the aliases do not exist there). -/
def stepLimitRegs (cfg : ARM_FaultConfig) (cpu : CpuState) (nsAlias : Bool)
    (r : ARM_FaultInfo_t) : ARM_FaultInfo_t :=
  if cfg.arch_armv8x_m then
    if cfg.tz_secure ∧ nsAlias then
      if cfg.arch_armv8_m_base then r
      else { r with MSPLIM := cpu.msplim_ns, PSPLIM := cpu.psplim_ns,
                    info := r.info ||| (1 <<< 22) }
    else { r with MSPLIM := cpu.msplim, PSPLIM := cpu.psplim,
                  info := r.info ||| (1 <<< 22) }
  else r

/-- Lines 408-506 (only when fault registers exist): read
CFSR/HFSR/DFSR/MMFAR/BFAR/AFSR through the SCB base resolved from the
non-secure-alias flag and set `fault_regs` (bit 23); on Armv8.1-M Mainline
also RFSR with `ras_fault_reg` (bit 25); on an Armv8-M Mainline secure-world
build also SFSR/SFAR (always through the secure SCB base) with
`secure_fault_regs` (bit 24). -/
def stepFaultRegs (cfg : ARM_FaultConfig) (cpu : CpuState) (nsAlias : Bool)
    (r : ARM_FaultInfo_t) : ARM_FaultInfo_t :=
  if cfg.fault_regs_exist then
    let r1 := { r with
      CFSR := if nsAlias then cpu.cfsr_ns else cpu.cfsr,
      HFSR := if nsAlias then cpu.hfsr_ns else cpu.hfsr,
      DFSR := if nsAlias then cpu.dfsr_ns else cpu.dfsr,
      MMFAR := if nsAlias then cpu.mmfar_ns else cpu.mmfar,
      BFAR := if nsAlias then cpu.bfar_ns else cpu.bfar,
      AFSR := if nsAlias then cpu.afsr_ns else cpu.afsr,
      info := r.info ||| (1 <<< 23) }
    let r2 :=
      if cfg.arch_armv8_1m_main then
        { r1 with RFSR := if nsAlias then cpu.rfsr_ns else cpu.rfsr,
                  info := r1.info ||| (1 <<< 25) }
      else r1
    if cfg.arch_armv8x_m_main ∧ cfg.tz_secure then
      { r2 with SFSR := cpu.sfsr, SFAR := cpu.sfar,
                info := r2.info ||| (1 <<< 24) }
    else r2
  else r

/-! ### The CRC loop of the third assembly block (lines 513-539)

Same byte-wise MSB-first computation as `CalcCRC32`, written as in the
assembly: `lsls r0, r0, #1` shifts bit 31 into the carry flag, `bcc`
skips the xor of the polynomial when the carry is clear. -/

/-- `crc_floop` (lines 528-534): 8 iterations counted down in R4. -/
def ARM_FaultSave_crcFloop : Nat → Nat → Nat → Nat
  | 0, r0, _ => r0
  | r4 + 1, r0, r3 =>
      let carry := r0.testBit 31
      let r0s := (r0 <<< 1) % 4294967296
      ARM_FaultSave_crcFloop r4 (if carry then r0s ^^^ r3 else r0s) r3

/-- `crc_wloop`/`crc_check` (lines 522-539): while R2 (length) is not 0,
load a byte (`ldrb`), shift it into the top byte (`lsls #24`, a 32-bit
shift), xor into R0, run `crc_floop`, advance R1, decrement R2. -/
def ARM_FaultSave_crcWloop (r2 r0 : Nat) (mem : Nat → Nat) (r1 r3 : Nat) : Nat :=
  match r2 with
  | 0 => r0
  | n + 1 =>
      ARM_FaultSave_crcWloop n
        (ARM_FaultSave_crcFloop 8 (r0 ^^^ (((mem r1 % 256) <<< 24) % 4294967296)) r3)
        mem (r1 + 1) r3

/-- Lines 513-542: compute the CRC-32 over the record from `count` to the
end (the byte image of the payload) with the fixed initial value and
polynomial, and store it into `crc32`. -/
def stepCrc (r : ARM_FaultInfo_t) : ARM_FaultInfo_t :=
  { r with crc32 :=
      (ARM_FaultSave_crcWloop payloadLen ARM_FAULT_CRC32_INIT_VAL
        (fun i => (payloadBytes r).getD i 0) 0 ARM_FAULT_CRC32_POLYNOM) }

/-- Lines 544-547: store the magic number last. -/
def stepMagic (r : ARM_FaultInfo_t) : ARM_FaultInfo_t :=
  { r with magic_number := ARM_FAULT_MAGIC_NUMBER }

/-- The sequence of record states produced by `ARM_FaultSave`, one entry per
store section, starting with the full wipe (lines 142-151) and ending with
the final record after the `magic_number` store.  Index 0 is the wiped
record; the last index is the completed record. -/
def ARM_FaultSave_trace (cfg : ARM_FaultConfig) (cpu : CpuState)
    (prior : ARM_FaultInfo_t) : List ARM_FaultInfo_t :=
  let base := (resolveStack cfg cpu).1
  let nsAlias := (resolveStack cfg cpu).2
  let invalid := stackInfoInvalid cfg cpu base nsAlias
  let s0 := zeroRecord
  let s1 := stepCount prior.count s0
  let s2 := stepInfo cfg s1
  let s3 := stepRegs cpu s2
  let s4 := stepTzFaultMode cfg nsAlias s3
  let s5 := stepStateContext cfg cpu invalid base s4
  let s6 := stepLiveContext cfg cpu nsAlias s5
  let s7 := stepLimitRegs cfg cpu nsAlias s6
  let s8 := stepFaultRegs cfg cpu nsAlias s7
  let s9 := stepCrc s8
  let s10 := stepMagic s9
  [s0, s1, s2, s3, s4, s5, s6, s7, s8, s9, s10]

/-- The record produced by a completed `ARM_FaultSave` run. -/
def ARM_FaultSave_record (cfg : ARM_FaultConfig) (cpu : CpuState)
    (prior : ARM_FaultInfo_t) : ARM_FaultInfo_t :=
  let base := (resolveStack cfg cpu).1
  let nsAlias := (resolveStack cfg cpu).2
  let invalid := stackInfoInvalid cfg cpu base nsAlias
  stepMagic (stepCrc
    (stepFaultRegs cfg cpu nsAlias
      (stepLimitRegs cfg cpu nsAlias
        (stepLiveContext cfg cpu nsAlias
          (stepStateContext cfg cpu invalid base
            (stepTzFaultMode cfg nsAlias
              (stepRegs cpu
                (stepInfo cfg
                  (stepCount prior.count zeroRecord)))))))))

/-! ## Concrete build profiles, CPU states and records used as explicit
inputs -/

/-- A basic profile without TrustZone, fault registers or Armv8-M
features. -/
def cfgBasic : ARM_FaultConfig :=
  { tz_secure := false, tz_enabled := false, fault_regs_exist := false,
    arch_armv8x_m := false, arch_armv8_m_base := false,
    arch_armv8x_m_main := false, arch_armv8_1m_main := false,
    ver_major := 1, ver_minor := 0, stack_err_msk := 0 }

/-- An Armv8-M Mainline secure-world profile with fault registers. -/
def cfgSecure : ARM_FaultConfig :=
  { tz_secure := true, tz_enabled := true, fault_regs_exist := true,
    arch_armv8x_m := true, arch_armv8_m_base := false,
    arch_armv8x_m_main := true, arch_armv8_1m_main := false,
    ver_major := 1, ver_minor := 0, stack_err_msk := 0x101010 }

/-- A CPU state with EXC_RETURN bit [2] = 0 (MSP), a nonzero stack pointer
and clean fault-status registers. -/
def cpuBasic : CpuState :=
  { lr := 0xFFFFFFF9, xpsr := 0x21000000, msp := 0x20001000, psp := 0x20002000,
    msp_ns := 0x30001000, psp_ns := 0x30002000,
    msplim := 0, psplim := 0, msplim_ns := 0, psplim_ns := 0,
    r4 := 4, r5 := 5, r6 := 6, r7 := 7, r8 := 8, r9 := 9, r10 := 10, r11 := 11,
    cfsr := 0, cfsr_ns := 0, hfsr := 0, hfsr_ns := 0, dfsr := 0, dfsr_ns := 0,
    mmfar := 0, mmfar_ns := 0, bfar := 0, bfar_ns := 0, afsr := 0, afsr_ns := 0,
    sfsr := 0, sfar := 0, rfsr := 0, rfsr_ns := 0,
    stackMem := fun a => a }

/-- Same CPU state but with EXC_RETURN = 0xFFFFFFAC: bit [2] = 1 (PSP),
bit [6] = 0 (fault came from the Non-Secure world), bit [5] = 1 (no
additional state context). -/
def cpuNsFault : CpuState := { cpuBasic with lr := 0xFFFFFFAC }

/-- Same CPU state but with EXC_RETURN bit [2] = 1 selecting PSP, and
PSP = 0: the resolved stack pointer is invalid. -/
def cpuZeroPsp : CpuState := { cpuBasic with lr := 0xFFFFFFFD, psp := 0 }

/-- A prior record whose 32-bit fault counter is at its maximum value. -/
def priorMaxCount : ARM_FaultInfo_t := { zeroRecord with count := 4294967295 }

/-! ## Single-bit corruption of the payload range

`setPayloadWord r w v` replaces payload word `w` (0-based index into
`payloadWords`) by `v`; `flipPayloadBit r w j` flips bit `j` of payload
word `w`, i.e. one bit of the byte range covered by the CRC. -/

def setPayloadWord (r : ARM_FaultInfo_t) (w v : Nat) : ARM_FaultInfo_t :=
  match w with
  | 0 => { r with count := v }
  | 1 => { r with info := v }
  | 2 => { r with R0 := v }
  | 3 => { r with R1 := v }
  | 4 => { r with R2 := v }
  | 5 => { r with R3 := v }
  | 6 => { r with R4 := v }
  | 7 => { r with R5 := v }
  | 8 => { r with R6 := v }
  | 9 => { r with R7 := v }
  | 10 => { r with R8 := v }
  | 11 => { r with R9 := v }
  | 12 => { r with R10 := v }
  | 13 => { r with R11 := v }
  | 14 => { r with R12 := v }
  | 15 => { r with LR := v }
  | 16 => { r with ReturnAddress := v }
  | 17 => { r with xPSR := v }
  | 18 => { r with EXC_xPSR := v }
  | 19 => { r with EXC_RETURN := v }
  | 20 => { r with MSP := v }
  | 21 => { r with PSP := v }
  | 22 => { r with MSPLIM := v }
  | 23 => { r with PSPLIM := v }
  | 24 => { r with CFSR := v }
  | 25 => { r with HFSR := v }
  | 26 => { r with DFSR := v }
  | 27 => { r with MMFAR := v }
  | 28 => { r with BFAR := v }
  | 29 => { r with AFSR := v }
  | 30 => { r with SFSR := v }
  | 31 => { r with SFAR := v }
  | 32 => { r with RFSR := v }
  | 33 => { r with IntegritySignature := v }
  | _ + 34 => r

def flipPayloadBit (r : ARM_FaultInfo_t) (w j : Nat) : ARM_FaultInfo_t :=
  setPayloadWord r w ((payloadWords r).getD w 0 ^^^ 2 ^ j)

/-- The byte image of the payload-wide error vector that flips bit `j` of
word `w`: zeros everywhere except the four bytes of word `w`, which hold
the little-endian image of `2 ^ j`. -/
def eVec (w j : Nat) : List Nat :=
  List.replicate (4 * w) 0 ++ (wordBytes (2 ^ j) ++ List.replicate (4 * (33 - w)) 0)

/-- A sealed (valid) record: the all-zero record run through the final two
store sections of the capture routine. -/
def sealedZero : ARM_FaultInfo_t := stepMagic (stepCrc zeroRecord)

/-- The sealed record with one payload bit flipped (bit 0 of `count`):
a corrupted record. -/
def corruptedZero : ARM_FaultInfo_t := flipPayloadBit sealedZero 0 0

end ARMFaultStorage

namespace ARMFaultStorage

/-! ## Basic lemmas -/

theorem payloadBytes_length (r : ARM_FaultInfo_t) :
    (payloadBytes r).length = payloadLen := rfl

theorem CalcCRC32_eq_crcL (polynom : Nat) (l : List Nat) :
    ∀ (init_val data_ptr : Nat) (mem : Nat → Nat),
      (∀ k, k < l.length → mem (data_ptr + k) = l.getD k 0) →
      CalcCRC32 init_val mem data_ptr l.length polynom = crcL init_val l polynom := by
  induction l with
  | nil => intro init ptr mem _; rfl
  | cons b rest ih =>
      intro init ptr mem hmem
      have hb : mem ptr = b := by
        have := hmem 0 (by simp)
        simpa using this
      simp only [List.length_cons, CalcCRC32, crcL, hb]
      apply ih
      intro k hk
      have := hmem (k + 1) (by simpa using Nat.succ_lt_succ hk)
      simpa [Nat.add_assoc, Nat.add_comm 1 k] using this

theorem occurred_eq_zero_of_magic_ne (r : ARM_FaultInfo_t)
    (h : r.magic_number ≠ ARM_FAULT_MAGIC_NUMBER) : ARM_FaultOccurred r = 0 := by
  simp [ARM_FaultOccurred, h]

/-! ## Equivalence of the assembly CRC loop and `CalcCRC32` -/

theorem and_top_bit (x : Nat) : (x &&& 0x80000000 ≠ 0) ↔ x.testBit 31 = true := by
  have h : (0x80000000 : Nat) = 2 ^ 31 := by norm_num
  rw [h, Nat.and_two_pow]
  cases hx : x.testBit 31 <;> simp

theorem crcShift_eq (r0 r3 : Nat) :
    crcShift r0 r3 =
      if r0.testBit 31 then ((r0 <<< 1) % 4294967296) ^^^ r3
      else (r0 <<< 1) % 4294967296 := by
  unfold crcShift
  by_cases h : r0.testBit 31 = true
  · rw [if_pos ((and_top_bit r0).mpr h), if_pos h]
  · rw [if_neg (fun hc => h ((and_top_bit r0).mp hc)), if_neg (by simpa using h)]

theorem crcFloop_eq_crcBits (n : Nat) :
    ∀ r0 r3 : Nat, ARM_FaultSave_crcFloop n r0 r3 = crcBits n r0 r3 := by
  induction n with
  | zero => intro r0 r3; rfl
  | succ n ih =>
      intro r0 r3
      simp only [ARM_FaultSave_crcFloop, crcBits]
      rw [ih, crcShift_eq]

theorem byte_shift24_lt (b : Nat) : (b % 256) <<< 24 < 4294967296 := by
  have hb : b % 256 < 256 := Nat.mod_lt _ (by norm_num)
  have h24 : (2 : Nat) ^ 24 = 16777216 := by norm_num
  rw [Nat.shiftLeft_eq, h24]
  omega

theorem crcWloop_eq_CalcCRC32 (data_len : Nat) :
    ∀ (r0 : Nat) (mem : Nat → Nat) (data_ptr polynom : Nat),
      ARM_FaultSave_crcWloop data_len r0 mem data_ptr polynom =
        CalcCRC32 r0 mem data_ptr data_len polynom := by
  induction data_len with
  | zero => intros; rfl
  | succ n ih =>
      intro r0 mem ptr poly
      simp only [ARM_FaultSave_crcWloop, CalcCRC32]
      rw [ih, crcFloop_eq_crcBits, Nat.mod_eq_of_lt (byte_shift24_lt (mem ptr))]

/-! ## The record produced by a completed capture is valid -/

/-! ## Projection lemmas for the sealing steps

The `crc32` value stored by `stepCrc` is a large recursive term; these
lemmas let later proofs project fields without the kernel ever comparing
that term against anything. -/

@[simp] theorem stepCrc_magic_number (r : ARM_FaultInfo_t) :
    (stepCrc r).magic_number = r.magic_number := by
  cases r
  rfl

@[simp] theorem stepCrc_count (r : ARM_FaultInfo_t) :
    (stepCrc r).count = r.count := by
  cases r
  rfl

@[simp] theorem stepCrc_info (r : ARM_FaultInfo_t) :
    (stepCrc r).info = r.info := by
  cases r
  rfl

@[simp] theorem stepCrc_R0 (r : ARM_FaultInfo_t) :
    (stepCrc r).R0 = r.R0 := by
  cases r
  rfl

@[simp] theorem stepCrc_R1 (r : ARM_FaultInfo_t) :
    (stepCrc r).R1 = r.R1 := by
  cases r
  rfl

@[simp] theorem stepCrc_R2 (r : ARM_FaultInfo_t) :
    (stepCrc r).R2 = r.R2 := by
  cases r
  rfl

@[simp] theorem stepCrc_R3 (r : ARM_FaultInfo_t) :
    (stepCrc r).R3 = r.R3 := by
  cases r
  rfl

@[simp] theorem stepCrc_R4 (r : ARM_FaultInfo_t) :
    (stepCrc r).R4 = r.R4 := by
  cases r
  rfl

@[simp] theorem stepCrc_R5 (r : ARM_FaultInfo_t) :
    (stepCrc r).R5 = r.R5 := by
  cases r
  rfl

@[simp] theorem stepCrc_R6 (r : ARM_FaultInfo_t) :
    (stepCrc r).R6 = r.R6 := by
  cases r
  rfl

@[simp] theorem stepCrc_R7 (r : ARM_FaultInfo_t) :
    (stepCrc r).R7 = r.R7 := by
  cases r
  rfl

@[simp] theorem stepCrc_R8 (r : ARM_FaultInfo_t) :
    (stepCrc r).R8 = r.R8 := by
  cases r
  rfl

@[simp] theorem stepCrc_R9 (r : ARM_FaultInfo_t) :
    (stepCrc r).R9 = r.R9 := by
  cases r
  rfl

@[simp] theorem stepCrc_R10 (r : ARM_FaultInfo_t) :
    (stepCrc r).R10 = r.R10 := by
  cases r
  rfl

@[simp] theorem stepCrc_R11 (r : ARM_FaultInfo_t) :
    (stepCrc r).R11 = r.R11 := by
  cases r
  rfl

@[simp] theorem stepCrc_R12 (r : ARM_FaultInfo_t) :
    (stepCrc r).R12 = r.R12 := by
  cases r
  rfl

@[simp] theorem stepCrc_LR (r : ARM_FaultInfo_t) :
    (stepCrc r).LR = r.LR := by
  cases r
  rfl

@[simp] theorem stepCrc_ReturnAddress (r : ARM_FaultInfo_t) :
    (stepCrc r).ReturnAddress = r.ReturnAddress := by
  cases r
  rfl

@[simp] theorem stepCrc_xPSR (r : ARM_FaultInfo_t) :
    (stepCrc r).xPSR = r.xPSR := by
  cases r
  rfl

@[simp] theorem stepCrc_EXC_xPSR (r : ARM_FaultInfo_t) :
    (stepCrc r).EXC_xPSR = r.EXC_xPSR := by
  cases r
  rfl

@[simp] theorem stepCrc_EXC_RETURN (r : ARM_FaultInfo_t) :
    (stepCrc r).EXC_RETURN = r.EXC_RETURN := by
  cases r
  rfl

@[simp] theorem stepCrc_MSP (r : ARM_FaultInfo_t) :
    (stepCrc r).MSP = r.MSP := by
  cases r
  rfl

@[simp] theorem stepCrc_PSP (r : ARM_FaultInfo_t) :
    (stepCrc r).PSP = r.PSP := by
  cases r
  rfl

@[simp] theorem stepCrc_MSPLIM (r : ARM_FaultInfo_t) :
    (stepCrc r).MSPLIM = r.MSPLIM := by
  cases r
  rfl

@[simp] theorem stepCrc_PSPLIM (r : ARM_FaultInfo_t) :
    (stepCrc r).PSPLIM = r.PSPLIM := by
  cases r
  rfl

@[simp] theorem stepCrc_CFSR (r : ARM_FaultInfo_t) :
    (stepCrc r).CFSR = r.CFSR := by
  cases r
  rfl

@[simp] theorem stepCrc_HFSR (r : ARM_FaultInfo_t) :
    (stepCrc r).HFSR = r.HFSR := by
  cases r
  rfl

@[simp] theorem stepCrc_DFSR (r : ARM_FaultInfo_t) :
    (stepCrc r).DFSR = r.DFSR := by
  cases r
  rfl

@[simp] theorem stepCrc_MMFAR (r : ARM_FaultInfo_t) :
    (stepCrc r).MMFAR = r.MMFAR := by
  cases r
  rfl

@[simp] theorem stepCrc_BFAR (r : ARM_FaultInfo_t) :
    (stepCrc r).BFAR = r.BFAR := by
  cases r
  rfl

@[simp] theorem stepCrc_AFSR (r : ARM_FaultInfo_t) :
    (stepCrc r).AFSR = r.AFSR := by
  cases r
  rfl

@[simp] theorem stepCrc_SFSR (r : ARM_FaultInfo_t) :
    (stepCrc r).SFSR = r.SFSR := by
  cases r
  rfl

@[simp] theorem stepCrc_SFAR (r : ARM_FaultInfo_t) :
    (stepCrc r).SFAR = r.SFAR := by
  cases r
  rfl

@[simp] theorem stepCrc_RFSR (r : ARM_FaultInfo_t) :
    (stepCrc r).RFSR = r.RFSR := by
  cases r
  rfl

@[simp] theorem stepCrc_IntegritySignature (r : ARM_FaultInfo_t) :
    (stepCrc r).IntegritySignature = r.IntegritySignature := by
  cases r
  rfl

theorem stepCrc_crc32 (r : ARM_FaultInfo_t) :
    (stepCrc r).crc32 =
      ARM_FaultSave_crcWloop payloadLen ARM_FAULT_CRC32_INIT_VAL
        (fun i => (payloadBytes r).getD i 0) 0 ARM_FAULT_CRC32_POLYNOM := by
  cases r
  rfl

@[simp] theorem stepMagic_crc32 (r : ARM_FaultInfo_t) :
    (stepMagic r).crc32 = r.crc32 := by
  cases r
  rfl

@[simp] theorem stepMagic_count (r : ARM_FaultInfo_t) :
    (stepMagic r).count = r.count := by
  cases r
  rfl

@[simp] theorem stepMagic_info (r : ARM_FaultInfo_t) :
    (stepMagic r).info = r.info := by
  cases r
  rfl

@[simp] theorem stepMagic_R0 (r : ARM_FaultInfo_t) :
    (stepMagic r).R0 = r.R0 := by
  cases r
  rfl

@[simp] theorem stepMagic_R1 (r : ARM_FaultInfo_t) :
    (stepMagic r).R1 = r.R1 := by
  cases r
  rfl

@[simp] theorem stepMagic_R2 (r : ARM_FaultInfo_t) :
    (stepMagic r).R2 = r.R2 := by
  cases r
  rfl

@[simp] theorem stepMagic_R3 (r : ARM_FaultInfo_t) :
    (stepMagic r).R3 = r.R3 := by
  cases r
  rfl

@[simp] theorem stepMagic_R4 (r : ARM_FaultInfo_t) :
    (stepMagic r).R4 = r.R4 := by
  cases r
  rfl

@[simp] theorem stepMagic_R5 (r : ARM_FaultInfo_t) :
    (stepMagic r).R5 = r.R5 := by
  cases r
  rfl

@[simp] theorem stepMagic_R6 (r : ARM_FaultInfo_t) :
    (stepMagic r).R6 = r.R6 := by
  cases r
  rfl

@[simp] theorem stepMagic_R7 (r : ARM_FaultInfo_t) :
    (stepMagic r).R7 = r.R7 := by
  cases r
  rfl

@[simp] theorem stepMagic_R8 (r : ARM_FaultInfo_t) :
    (stepMagic r).R8 = r.R8 := by
  cases r
  rfl

@[simp] theorem stepMagic_R9 (r : ARM_FaultInfo_t) :
    (stepMagic r).R9 = r.R9 := by
  cases r
  rfl

@[simp] theorem stepMagic_R10 (r : ARM_FaultInfo_t) :
    (stepMagic r).R10 = r.R10 := by
  cases r
  rfl

@[simp] theorem stepMagic_R11 (r : ARM_FaultInfo_t) :
    (stepMagic r).R11 = r.R11 := by
  cases r
  rfl

@[simp] theorem stepMagic_R12 (r : ARM_FaultInfo_t) :
    (stepMagic r).R12 = r.R12 := by
  cases r
  rfl

@[simp] theorem stepMagic_LR (r : ARM_FaultInfo_t) :
    (stepMagic r).LR = r.LR := by
  cases r
  rfl

@[simp] theorem stepMagic_ReturnAddress (r : ARM_FaultInfo_t) :
    (stepMagic r).ReturnAddress = r.ReturnAddress := by
  cases r
  rfl

@[simp] theorem stepMagic_xPSR (r : ARM_FaultInfo_t) :
    (stepMagic r).xPSR = r.xPSR := by
  cases r
  rfl

@[simp] theorem stepMagic_EXC_xPSR (r : ARM_FaultInfo_t) :
    (stepMagic r).EXC_xPSR = r.EXC_xPSR := by
  cases r
  rfl

@[simp] theorem stepMagic_EXC_RETURN (r : ARM_FaultInfo_t) :
    (stepMagic r).EXC_RETURN = r.EXC_RETURN := by
  cases r
  rfl

@[simp] theorem stepMagic_MSP (r : ARM_FaultInfo_t) :
    (stepMagic r).MSP = r.MSP := by
  cases r
  rfl

@[simp] theorem stepMagic_PSP (r : ARM_FaultInfo_t) :
    (stepMagic r).PSP = r.PSP := by
  cases r
  rfl

@[simp] theorem stepMagic_MSPLIM (r : ARM_FaultInfo_t) :
    (stepMagic r).MSPLIM = r.MSPLIM := by
  cases r
  rfl

@[simp] theorem stepMagic_PSPLIM (r : ARM_FaultInfo_t) :
    (stepMagic r).PSPLIM = r.PSPLIM := by
  cases r
  rfl

@[simp] theorem stepMagic_CFSR (r : ARM_FaultInfo_t) :
    (stepMagic r).CFSR = r.CFSR := by
  cases r
  rfl

@[simp] theorem stepMagic_HFSR (r : ARM_FaultInfo_t) :
    (stepMagic r).HFSR = r.HFSR := by
  cases r
  rfl

@[simp] theorem stepMagic_DFSR (r : ARM_FaultInfo_t) :
    (stepMagic r).DFSR = r.DFSR := by
  cases r
  rfl

@[simp] theorem stepMagic_MMFAR (r : ARM_FaultInfo_t) :
    (stepMagic r).MMFAR = r.MMFAR := by
  cases r
  rfl

@[simp] theorem stepMagic_BFAR (r : ARM_FaultInfo_t) :
    (stepMagic r).BFAR = r.BFAR := by
  cases r
  rfl

@[simp] theorem stepMagic_AFSR (r : ARM_FaultInfo_t) :
    (stepMagic r).AFSR = r.AFSR := by
  cases r
  rfl

@[simp] theorem stepMagic_SFSR (r : ARM_FaultInfo_t) :
    (stepMagic r).SFSR = r.SFSR := by
  cases r
  rfl

@[simp] theorem stepMagic_SFAR (r : ARM_FaultInfo_t) :
    (stepMagic r).SFAR = r.SFAR := by
  cases r
  rfl

@[simp] theorem stepMagic_RFSR (r : ARM_FaultInfo_t) :
    (stepMagic r).RFSR = r.RFSR := by
  cases r
  rfl

@[simp] theorem stepMagic_IntegritySignature (r : ARM_FaultInfo_t) :
    (stepMagic r).IntegritySignature = r.IntegritySignature := by
  cases r
  rfl

@[simp] theorem stepMagic_magic (r : ARM_FaultInfo_t) :
    (stepMagic r).magic_number = ARM_FAULT_MAGIC_NUMBER := by
  cases r
  rfl

/-! ## Field-preservation lemmas for the conditional store sections -/

@[simp] theorem stepTzFaultMode_magic_number (cfg : ARM_FaultConfig) (ns : Bool) (r : ARM_FaultInfo_t) :
    (stepTzFaultMode cfg ns r).magic_number = r.magic_number := by
  simp only [stepTzFaultMode]
  split_ifs <;> rfl

@[simp] theorem stepTzFaultMode_crc32 (cfg : ARM_FaultConfig) (ns : Bool) (r : ARM_FaultInfo_t) :
    (stepTzFaultMode cfg ns r).crc32 = r.crc32 := by
  simp only [stepTzFaultMode]
  split_ifs <;> rfl

@[simp] theorem stepTzFaultMode_count (cfg : ARM_FaultConfig) (ns : Bool) (r : ARM_FaultInfo_t) :
    (stepTzFaultMode cfg ns r).count = r.count := by
  simp only [stepTzFaultMode]
  split_ifs <;> rfl

@[simp] theorem stepTzFaultMode_R0 (cfg : ARM_FaultConfig) (ns : Bool) (r : ARM_FaultInfo_t) :
    (stepTzFaultMode cfg ns r).R0 = r.R0 := by
  simp only [stepTzFaultMode]
  split_ifs <;> rfl

@[simp] theorem stepTzFaultMode_R1 (cfg : ARM_FaultConfig) (ns : Bool) (r : ARM_FaultInfo_t) :
    (stepTzFaultMode cfg ns r).R1 = r.R1 := by
  simp only [stepTzFaultMode]
  split_ifs <;> rfl

@[simp] theorem stepTzFaultMode_R2 (cfg : ARM_FaultConfig) (ns : Bool) (r : ARM_FaultInfo_t) :
    (stepTzFaultMode cfg ns r).R2 = r.R2 := by
  simp only [stepTzFaultMode]
  split_ifs <;> rfl

@[simp] theorem stepTzFaultMode_R3 (cfg : ARM_FaultConfig) (ns : Bool) (r : ARM_FaultInfo_t) :
    (stepTzFaultMode cfg ns r).R3 = r.R3 := by
  simp only [stepTzFaultMode]
  split_ifs <;> rfl

@[simp] theorem stepTzFaultMode_R12 (cfg : ARM_FaultConfig) (ns : Bool) (r : ARM_FaultInfo_t) :
    (stepTzFaultMode cfg ns r).R12 = r.R12 := by
  simp only [stepTzFaultMode]
  split_ifs <;> rfl

@[simp] theorem stepTzFaultMode_LR (cfg : ARM_FaultConfig) (ns : Bool) (r : ARM_FaultInfo_t) :
    (stepTzFaultMode cfg ns r).LR = r.LR := by
  simp only [stepTzFaultMode]
  split_ifs <;> rfl

@[simp] theorem stepTzFaultMode_ReturnAddress (cfg : ARM_FaultConfig) (ns : Bool) (r : ARM_FaultInfo_t) :
    (stepTzFaultMode cfg ns r).ReturnAddress = r.ReturnAddress := by
  simp only [stepTzFaultMode]
  split_ifs <;> rfl

@[simp] theorem stepTzFaultMode_xPSR (cfg : ARM_FaultConfig) (ns : Bool) (r : ARM_FaultInfo_t) :
    (stepTzFaultMode cfg ns r).xPSR = r.xPSR := by
  simp only [stepTzFaultMode]
  split_ifs <;> rfl

@[simp] theorem stepTzFaultMode_EXC_xPSR (cfg : ARM_FaultConfig) (ns : Bool) (r : ARM_FaultInfo_t) :
    (stepTzFaultMode cfg ns r).EXC_xPSR = r.EXC_xPSR := by
  simp only [stepTzFaultMode]
  split_ifs <;> rfl

@[simp] theorem stepTzFaultMode_EXC_RETURN (cfg : ARM_FaultConfig) (ns : Bool) (r : ARM_FaultInfo_t) :
    (stepTzFaultMode cfg ns r).EXC_RETURN = r.EXC_RETURN := by
  simp only [stepTzFaultMode]
  split_ifs <;> rfl

@[simp] theorem stepTzFaultMode_MSP (cfg : ARM_FaultConfig) (ns : Bool) (r : ARM_FaultInfo_t) :
    (stepTzFaultMode cfg ns r).MSP = r.MSP := by
  simp only [stepTzFaultMode]
  split_ifs <;> rfl

@[simp] theorem stepTzFaultMode_PSP (cfg : ARM_FaultConfig) (ns : Bool) (r : ARM_FaultInfo_t) :
    (stepTzFaultMode cfg ns r).PSP = r.PSP := by
  simp only [stepTzFaultMode]
  split_ifs <;> rfl

@[simp] theorem stepTzFaultMode_CFSR (cfg : ARM_FaultConfig) (ns : Bool) (r : ARM_FaultInfo_t) :
    (stepTzFaultMode cfg ns r).CFSR = r.CFSR := by
  simp only [stepTzFaultMode]
  split_ifs <;> rfl

@[simp] theorem stepStateContext_magic_number (cfg : ARM_FaultConfig) (cpu : CpuState) (inv : Bool) (b : Nat) (r : ARM_FaultInfo_t) :
    (stepStateContext cfg cpu inv b r).magic_number = r.magic_number := by
  simp only [stepStateContext, stepAdditionalContext]
  split_ifs <;> rfl

@[simp] theorem stepStateContext_crc32 (cfg : ARM_FaultConfig) (cpu : CpuState) (inv : Bool) (b : Nat) (r : ARM_FaultInfo_t) :
    (stepStateContext cfg cpu inv b r).crc32 = r.crc32 := by
  simp only [stepStateContext, stepAdditionalContext]
  split_ifs <;> rfl

@[simp] theorem stepStateContext_count (cfg : ARM_FaultConfig) (cpu : CpuState) (inv : Bool) (b : Nat) (r : ARM_FaultInfo_t) :
    (stepStateContext cfg cpu inv b r).count = r.count := by
  simp only [stepStateContext, stepAdditionalContext]
  split_ifs <;> rfl

@[simp] theorem stepStateContext_EXC_xPSR (cfg : ARM_FaultConfig) (cpu : CpuState) (inv : Bool) (b : Nat) (r : ARM_FaultInfo_t) :
    (stepStateContext cfg cpu inv b r).EXC_xPSR = r.EXC_xPSR := by
  simp only [stepStateContext, stepAdditionalContext]
  split_ifs <;> rfl

@[simp] theorem stepStateContext_EXC_RETURN (cfg : ARM_FaultConfig) (cpu : CpuState) (inv : Bool) (b : Nat) (r : ARM_FaultInfo_t) :
    (stepStateContext cfg cpu inv b r).EXC_RETURN = r.EXC_RETURN := by
  simp only [stepStateContext, stepAdditionalContext]
  split_ifs <;> rfl

@[simp] theorem stepStateContext_MSP (cfg : ARM_FaultConfig) (cpu : CpuState) (inv : Bool) (b : Nat) (r : ARM_FaultInfo_t) :
    (stepStateContext cfg cpu inv b r).MSP = r.MSP := by
  simp only [stepStateContext, stepAdditionalContext]
  split_ifs <;> rfl

@[simp] theorem stepStateContext_PSP (cfg : ARM_FaultConfig) (cpu : CpuState) (inv : Bool) (b : Nat) (r : ARM_FaultInfo_t) :
    (stepStateContext cfg cpu inv b r).PSP = r.PSP := by
  simp only [stepStateContext, stepAdditionalContext]
  split_ifs <;> rfl

@[simp] theorem stepStateContext_CFSR (cfg : ARM_FaultConfig) (cpu : CpuState) (inv : Bool) (b : Nat) (r : ARM_FaultInfo_t) :
    (stepStateContext cfg cpu inv b r).CFSR = r.CFSR := by
  simp only [stepStateContext, stepAdditionalContext]
  split_ifs <;> rfl

@[simp] theorem stepLiveContext_magic_number (cfg : ARM_FaultConfig) (cpu : CpuState) (ns : Bool) (r : ARM_FaultInfo_t) :
    (stepLiveContext cfg cpu ns r).magic_number = r.magic_number := by
  simp only [stepLiveContext]
  split_ifs <;> rfl

@[simp] theorem stepLiveContext_crc32 (cfg : ARM_FaultConfig) (cpu : CpuState) (ns : Bool) (r : ARM_FaultInfo_t) :
    (stepLiveContext cfg cpu ns r).crc32 = r.crc32 := by
  simp only [stepLiveContext]
  split_ifs <;> rfl

@[simp] theorem stepLiveContext_count (cfg : ARM_FaultConfig) (cpu : CpuState) (ns : Bool) (r : ARM_FaultInfo_t) :
    (stepLiveContext cfg cpu ns r).count = r.count := by
  simp only [stepLiveContext]
  split_ifs <;> rfl

@[simp] theorem stepLiveContext_info (cfg : ARM_FaultConfig) (cpu : CpuState) (ns : Bool) (r : ARM_FaultInfo_t) :
    (stepLiveContext cfg cpu ns r).info = r.info := by
  simp only [stepLiveContext]
  split_ifs <;> rfl

@[simp] theorem stepLiveContext_R0 (cfg : ARM_FaultConfig) (cpu : CpuState) (ns : Bool) (r : ARM_FaultInfo_t) :
    (stepLiveContext cfg cpu ns r).R0 = r.R0 := by
  simp only [stepLiveContext]
  split_ifs <;> rfl

@[simp] theorem stepLiveContext_R1 (cfg : ARM_FaultConfig) (cpu : CpuState) (ns : Bool) (r : ARM_FaultInfo_t) :
    (stepLiveContext cfg cpu ns r).R1 = r.R1 := by
  simp only [stepLiveContext]
  split_ifs <;> rfl

@[simp] theorem stepLiveContext_R2 (cfg : ARM_FaultConfig) (cpu : CpuState) (ns : Bool) (r : ARM_FaultInfo_t) :
    (stepLiveContext cfg cpu ns r).R2 = r.R2 := by
  simp only [stepLiveContext]
  split_ifs <;> rfl

@[simp] theorem stepLiveContext_R3 (cfg : ARM_FaultConfig) (cpu : CpuState) (ns : Bool) (r : ARM_FaultInfo_t) :
    (stepLiveContext cfg cpu ns r).R3 = r.R3 := by
  simp only [stepLiveContext]
  split_ifs <;> rfl

@[simp] theorem stepLiveContext_R12 (cfg : ARM_FaultConfig) (cpu : CpuState) (ns : Bool) (r : ARM_FaultInfo_t) :
    (stepLiveContext cfg cpu ns r).R12 = r.R12 := by
  simp only [stepLiveContext]
  split_ifs <;> rfl

@[simp] theorem stepLiveContext_LR (cfg : ARM_FaultConfig) (cpu : CpuState) (ns : Bool) (r : ARM_FaultInfo_t) :
    (stepLiveContext cfg cpu ns r).LR = r.LR := by
  simp only [stepLiveContext]
  split_ifs <;> rfl

@[simp] theorem stepLiveContext_ReturnAddress (cfg : ARM_FaultConfig) (cpu : CpuState) (ns : Bool) (r : ARM_FaultInfo_t) :
    (stepLiveContext cfg cpu ns r).ReturnAddress = r.ReturnAddress := by
  simp only [stepLiveContext]
  split_ifs <;> rfl

@[simp] theorem stepLiveContext_xPSR (cfg : ARM_FaultConfig) (cpu : CpuState) (ns : Bool) (r : ARM_FaultInfo_t) :
    (stepLiveContext cfg cpu ns r).xPSR = r.xPSR := by
  simp only [stepLiveContext]
  split_ifs <;> rfl

@[simp] theorem stepLiveContext_CFSR (cfg : ARM_FaultConfig) (cpu : CpuState) (ns : Bool) (r : ARM_FaultInfo_t) :
    (stepLiveContext cfg cpu ns r).CFSR = r.CFSR := by
  simp only [stepLiveContext]
  split_ifs <;> rfl

@[simp] theorem stepLimitRegs_magic_number (cfg : ARM_FaultConfig) (cpu : CpuState) (ns : Bool) (r : ARM_FaultInfo_t) :
    (stepLimitRegs cfg cpu ns r).magic_number = r.magic_number := by
  simp only [stepLimitRegs]
  split_ifs <;> rfl

@[simp] theorem stepLimitRegs_crc32 (cfg : ARM_FaultConfig) (cpu : CpuState) (ns : Bool) (r : ARM_FaultInfo_t) :
    (stepLimitRegs cfg cpu ns r).crc32 = r.crc32 := by
  simp only [stepLimitRegs]
  split_ifs <;> rfl

@[simp] theorem stepLimitRegs_count (cfg : ARM_FaultConfig) (cpu : CpuState) (ns : Bool) (r : ARM_FaultInfo_t) :
    (stepLimitRegs cfg cpu ns r).count = r.count := by
  simp only [stepLimitRegs]
  split_ifs <;> rfl

@[simp] theorem stepLimitRegs_R0 (cfg : ARM_FaultConfig) (cpu : CpuState) (ns : Bool) (r : ARM_FaultInfo_t) :
    (stepLimitRegs cfg cpu ns r).R0 = r.R0 := by
  simp only [stepLimitRegs]
  split_ifs <;> rfl

@[simp] theorem stepLimitRegs_R1 (cfg : ARM_FaultConfig) (cpu : CpuState) (ns : Bool) (r : ARM_FaultInfo_t) :
    (stepLimitRegs cfg cpu ns r).R1 = r.R1 := by
  simp only [stepLimitRegs]
  split_ifs <;> rfl

@[simp] theorem stepLimitRegs_R2 (cfg : ARM_FaultConfig) (cpu : CpuState) (ns : Bool) (r : ARM_FaultInfo_t) :
    (stepLimitRegs cfg cpu ns r).R2 = r.R2 := by
  simp only [stepLimitRegs]
  split_ifs <;> rfl

@[simp] theorem stepLimitRegs_R3 (cfg : ARM_FaultConfig) (cpu : CpuState) (ns : Bool) (r : ARM_FaultInfo_t) :
    (stepLimitRegs cfg cpu ns r).R3 = r.R3 := by
  simp only [stepLimitRegs]
  split_ifs <;> rfl

@[simp] theorem stepLimitRegs_R12 (cfg : ARM_FaultConfig) (cpu : CpuState) (ns : Bool) (r : ARM_FaultInfo_t) :
    (stepLimitRegs cfg cpu ns r).R12 = r.R12 := by
  simp only [stepLimitRegs]
  split_ifs <;> rfl

@[simp] theorem stepLimitRegs_LR (cfg : ARM_FaultConfig) (cpu : CpuState) (ns : Bool) (r : ARM_FaultInfo_t) :
    (stepLimitRegs cfg cpu ns r).LR = r.LR := by
  simp only [stepLimitRegs]
  split_ifs <;> rfl

@[simp] theorem stepLimitRegs_ReturnAddress (cfg : ARM_FaultConfig) (cpu : CpuState) (ns : Bool) (r : ARM_FaultInfo_t) :
    (stepLimitRegs cfg cpu ns r).ReturnAddress = r.ReturnAddress := by
  simp only [stepLimitRegs]
  split_ifs <;> rfl

@[simp] theorem stepLimitRegs_xPSR (cfg : ARM_FaultConfig) (cpu : CpuState) (ns : Bool) (r : ARM_FaultInfo_t) :
    (stepLimitRegs cfg cpu ns r).xPSR = r.xPSR := by
  simp only [stepLimitRegs]
  split_ifs <;> rfl

@[simp] theorem stepLimitRegs_EXC_xPSR (cfg : ARM_FaultConfig) (cpu : CpuState) (ns : Bool) (r : ARM_FaultInfo_t) :
    (stepLimitRegs cfg cpu ns r).EXC_xPSR = r.EXC_xPSR := by
  simp only [stepLimitRegs]
  split_ifs <;> rfl

@[simp] theorem stepLimitRegs_EXC_RETURN (cfg : ARM_FaultConfig) (cpu : CpuState) (ns : Bool) (r : ARM_FaultInfo_t) :
    (stepLimitRegs cfg cpu ns r).EXC_RETURN = r.EXC_RETURN := by
  simp only [stepLimitRegs]
  split_ifs <;> rfl

@[simp] theorem stepLimitRegs_MSP (cfg : ARM_FaultConfig) (cpu : CpuState) (ns : Bool) (r : ARM_FaultInfo_t) :
    (stepLimitRegs cfg cpu ns r).MSP = r.MSP := by
  simp only [stepLimitRegs]
  split_ifs <;> rfl

@[simp] theorem stepLimitRegs_PSP (cfg : ARM_FaultConfig) (cpu : CpuState) (ns : Bool) (r : ARM_FaultInfo_t) :
    (stepLimitRegs cfg cpu ns r).PSP = r.PSP := by
  simp only [stepLimitRegs]
  split_ifs <;> rfl

@[simp] theorem stepLimitRegs_CFSR (cfg : ARM_FaultConfig) (cpu : CpuState) (ns : Bool) (r : ARM_FaultInfo_t) :
    (stepLimitRegs cfg cpu ns r).CFSR = r.CFSR := by
  simp only [stepLimitRegs]
  split_ifs <;> rfl

@[simp] theorem stepFaultRegs_magic_number (cfg : ARM_FaultConfig) (cpu : CpuState) (ns : Bool) (r : ARM_FaultInfo_t) :
    (stepFaultRegs cfg cpu ns r).magic_number = r.magic_number := by
  simp only [stepFaultRegs]
  split_ifs <;> rfl

@[simp] theorem stepFaultRegs_crc32 (cfg : ARM_FaultConfig) (cpu : CpuState) (ns : Bool) (r : ARM_FaultInfo_t) :
    (stepFaultRegs cfg cpu ns r).crc32 = r.crc32 := by
  simp only [stepFaultRegs]
  split_ifs <;> rfl

@[simp] theorem stepFaultRegs_count (cfg : ARM_FaultConfig) (cpu : CpuState) (ns : Bool) (r : ARM_FaultInfo_t) :
    (stepFaultRegs cfg cpu ns r).count = r.count := by
  simp only [stepFaultRegs]
  split_ifs <;> rfl

@[simp] theorem stepFaultRegs_R0 (cfg : ARM_FaultConfig) (cpu : CpuState) (ns : Bool) (r : ARM_FaultInfo_t) :
    (stepFaultRegs cfg cpu ns r).R0 = r.R0 := by
  simp only [stepFaultRegs]
  split_ifs <;> rfl

@[simp] theorem stepFaultRegs_R1 (cfg : ARM_FaultConfig) (cpu : CpuState) (ns : Bool) (r : ARM_FaultInfo_t) :
    (stepFaultRegs cfg cpu ns r).R1 = r.R1 := by
  simp only [stepFaultRegs]
  split_ifs <;> rfl

@[simp] theorem stepFaultRegs_R2 (cfg : ARM_FaultConfig) (cpu : CpuState) (ns : Bool) (r : ARM_FaultInfo_t) :
    (stepFaultRegs cfg cpu ns r).R2 = r.R2 := by
  simp only [stepFaultRegs]
  split_ifs <;> rfl

@[simp] theorem stepFaultRegs_R3 (cfg : ARM_FaultConfig) (cpu : CpuState) (ns : Bool) (r : ARM_FaultInfo_t) :
    (stepFaultRegs cfg cpu ns r).R3 = r.R3 := by
  simp only [stepFaultRegs]
  split_ifs <;> rfl

@[simp] theorem stepFaultRegs_R12 (cfg : ARM_FaultConfig) (cpu : CpuState) (ns : Bool) (r : ARM_FaultInfo_t) :
    (stepFaultRegs cfg cpu ns r).R12 = r.R12 := by
  simp only [stepFaultRegs]
  split_ifs <;> rfl

@[simp] theorem stepFaultRegs_LR (cfg : ARM_FaultConfig) (cpu : CpuState) (ns : Bool) (r : ARM_FaultInfo_t) :
    (stepFaultRegs cfg cpu ns r).LR = r.LR := by
  simp only [stepFaultRegs]
  split_ifs <;> rfl

@[simp] theorem stepFaultRegs_ReturnAddress (cfg : ARM_FaultConfig) (cpu : CpuState) (ns : Bool) (r : ARM_FaultInfo_t) :
    (stepFaultRegs cfg cpu ns r).ReturnAddress = r.ReturnAddress := by
  simp only [stepFaultRegs]
  split_ifs <;> rfl

@[simp] theorem stepFaultRegs_xPSR (cfg : ARM_FaultConfig) (cpu : CpuState) (ns : Bool) (r : ARM_FaultInfo_t) :
    (stepFaultRegs cfg cpu ns r).xPSR = r.xPSR := by
  simp only [stepFaultRegs]
  split_ifs <;> rfl

@[simp] theorem stepFaultRegs_EXC_xPSR (cfg : ARM_FaultConfig) (cpu : CpuState) (ns : Bool) (r : ARM_FaultInfo_t) :
    (stepFaultRegs cfg cpu ns r).EXC_xPSR = r.EXC_xPSR := by
  simp only [stepFaultRegs]
  split_ifs <;> rfl

@[simp] theorem stepFaultRegs_EXC_RETURN (cfg : ARM_FaultConfig) (cpu : CpuState) (ns : Bool) (r : ARM_FaultInfo_t) :
    (stepFaultRegs cfg cpu ns r).EXC_RETURN = r.EXC_RETURN := by
  simp only [stepFaultRegs]
  split_ifs <;> rfl

@[simp] theorem stepFaultRegs_MSP (cfg : ARM_FaultConfig) (cpu : CpuState) (ns : Bool) (r : ARM_FaultInfo_t) :
    (stepFaultRegs cfg cpu ns r).MSP = r.MSP := by
  simp only [stepFaultRegs]
  split_ifs <;> rfl

@[simp] theorem stepFaultRegs_PSP (cfg : ARM_FaultConfig) (cpu : CpuState) (ns : Bool) (r : ARM_FaultInfo_t) :
    (stepFaultRegs cfg cpu ns r).PSP = r.PSP := by
  simp only [stepFaultRegs]
  split_ifs <;> rfl


/-! ## Characterization lemmas for the conditional store sections -/

theorem stepTzFaultMode_info (cfg : ARM_FaultConfig) (ns : Bool) (r : ARM_FaultInfo_t) :
    (stepTzFaultMode cfg ns r).info =
      if cfg.tz_secure ∧ ¬ns then r.info ||| (1 <<< 20) else r.info := by
  simp only [stepTzFaultMode]
  split_ifs <;> rfl

theorem stepStateContext_invalid (cfg : ARM_FaultConfig) (cpu : CpuState)
    (b : Nat) (r : ARM_FaultInfo_t) : stepStateContext cfg cpu true b r = r := by
  simp [stepStateContext]

theorem stepStateContext_info (cfg : ARM_FaultConfig) (cpu : CpuState)
    (inv : Bool) (b : Nat) (r : ARM_FaultInfo_t) :
    (stepStateContext cfg cpu inv b r).info =
      if inv then r.info else r.info ||| (1 <<< 21) := by
  simp only [stepStateContext, stepAdditionalContext]
  split_ifs <;> rfl

theorem stepLiveContext_EXC_xPSR (cfg : ARM_FaultConfig) (cpu : CpuState)
    (ns : Bool) (r : ARM_FaultInfo_t) :
    (stepLiveContext cfg cpu ns r).EXC_xPSR = cpu.xpsr := by
  simp only [stepLiveContext]
  split_ifs <;> rfl

theorem stepLiveContext_EXC_RETURN (cfg : ARM_FaultConfig) (cpu : CpuState)
    (ns : Bool) (r : ARM_FaultInfo_t) :
    (stepLiveContext cfg cpu ns r).EXC_RETURN = cpu.lr := by
  simp only [stepLiveContext]
  split_ifs <;> rfl

theorem stepLiveContext_MSP (cfg : ARM_FaultConfig) (cpu : CpuState)
    (ns : Bool) (r : ARM_FaultInfo_t) :
    (stepLiveContext cfg cpu ns r).MSP =
      if cfg.tz_secure ∧ ns then cpu.msp_ns else cpu.msp := by
  simp only [stepLiveContext]
  split_ifs <;> rfl

theorem stepLiveContext_PSP (cfg : ARM_FaultConfig) (cpu : CpuState)
    (ns : Bool) (r : ARM_FaultInfo_t) :
    (stepLiveContext cfg cpu ns r).PSP =
      if cfg.tz_secure ∧ ns then cpu.psp_ns else cpu.psp := by
  simp only [stepLiveContext]
  split_ifs <;> rfl

theorem stepLimitRegs_info (cfg : ARM_FaultConfig) (cpu : CpuState)
    (ns : Bool) (r : ARM_FaultInfo_t) :
    (stepLimitRegs cfg cpu ns r).info =
      if cfg.arch_armv8x_m then
        if cfg.tz_secure ∧ ns then
          if cfg.arch_armv8_m_base then r.info else r.info ||| (1 <<< 22)
        else r.info ||| (1 <<< 22)
      else r.info := by
  simp only [stepLimitRegs]
  split_ifs <;> rfl

theorem stepFaultRegs_CFSR (cfg : ARM_FaultConfig) (cpu : CpuState)
    (ns : Bool) (r : ARM_FaultInfo_t) :
    (stepFaultRegs cfg cpu ns r).CFSR =
      if cfg.fault_regs_exist then (if ns then cpu.cfsr_ns else cpu.cfsr)
      else r.CFSR := by
  simp only [stepFaultRegs]
  split_ifs <;> rfl

theorem stepFaultRegs_info (cfg : ARM_FaultConfig) (cpu : CpuState)
    (ns : Bool) (r : ARM_FaultInfo_t) :
    (stepFaultRegs cfg cpu ns r).info =
      if cfg.fault_regs_exist then
        if cfg.arch_armv8x_m_main ∧ cfg.tz_secure then
          (if cfg.arch_armv8_1m_main then (r.info ||| (1 <<< 23)) ||| (1 <<< 25)
           else r.info ||| (1 <<< 23)) ||| (1 <<< 24)
        else
          if cfg.arch_armv8_1m_main then (r.info ||| (1 <<< 23)) ||| (1 <<< 25)
          else r.info ||| (1 <<< 23)
      else r.info := by
  simp only [stepFaultRegs]
  split_ifs <;> rfl


theorem payloadWords_seal (r : ARM_FaultInfo_t) :
    payloadWords (stepMagic (stepCrc r)) = payloadWords r := by
  simp [payloadWords]

theorem payloadBytes_seal (r : ARM_FaultInfo_t) :
    payloadBytes (stepMagic (stepCrc r)) = payloadBytes r :=
  congrArg bytesOfWords (payloadWords_seal r)

theorem occurred_seal (r : ARM_FaultInfo_t) :
    ARM_FaultOccurred (stepMagic (stepCrc r)) = 1 := by
  have hc : (stepCrc r).crc32 = recordCRC (stepMagic (stepCrc r)) := by
    rw [stepCrc_crc32, crcWloop_eq_CalcCRC32]
    unfold recordCRC
    rw [payloadBytes_seal]
  simp [ARM_FaultOccurred, hc]

/-! ## Claim theorems: C7 and C10 -/

/-- C10: for every initial value, data memory, data pointer and polynomial,
`CalcCRC32` called with data length zero returns the initial value unchanged:
the `while (data_len != 0U)` loop body never runs. -/
theorem calcCRC32_len_zero (init_val : Nat) (mem : Nat → Nat)
    (data_ptr polynom : Nat) :
    CalcCRC32 init_val mem data_ptr 0 polynom = init_val := rfl

/-- C7: for every prior record state, immediately after `ARM_FaultClear`
zeroes the record, `ARM_FaultOccurred` returns 0 (false): the zeroed
`magic_number` cannot equal the magic constant. -/
theorem occurred_after_clear (r : ARM_FaultInfo_t) :
    ARM_FaultOccurred (ARM_FaultClear r) = 0 :=
  occurred_eq_zero_of_magic_ne _
    (by simp [ARM_FaultClear, zeroRecord, ARM_FAULT_MAGIC_NUMBER])

/-! ## Claim theorems: C1 and C6 -/

/-- C1: `ARM_FaultOccurred` returns 1 exactly when `magic_number` equals the
magic constant and the stored `crc32` equals the CRC-32 recomputed (with the
fixed initial value and polynomial) over the byte range from `count` through
the end of the record, and returns 0 for every record state not satisfying
both conditions. -/
theorem occurred_iff_magic_and_crc (r : ARM_FaultInfo_t) :
    (ARM_FaultOccurred r = 1 ↔
      r.magic_number = ARM_FAULT_MAGIC_NUMBER ∧ r.crc32 = recordCRC r) ∧
    (ARM_FaultOccurred r = 0 ↔
      ¬(r.magic_number = ARM_FAULT_MAGIC_NUMBER ∧ r.crc32 = recordCRC r)) := by
  by_cases h1 : r.magic_number = ARM_FAULT_MAGIC_NUMBER <;>
    by_cases h2 : r.crc32 = recordCRC r <;>
      simp [ARM_FaultOccurred, h1, h2]

/-- C6: the CRC-32 computed by the inline-assembly loop of `ARM_FaultSave`
equals `CalcCRC32` for every initial value, byte range, length and
polynomial; consequently, for every record produced by a completed capture,
the stored `crc32` matches the recomputed checksum and `ARM_FaultOccurred`
returns 1. -/
theorem asm_crc_eq_calc_and_capture_valid :
    (∀ (init_val : Nat) (mem : Nat → Nat) (data_ptr data_len polynom : Nat),
        ARM_FaultSave_crcWloop data_len init_val mem data_ptr polynom =
          CalcCRC32 init_val mem data_ptr data_len polynom) ∧
    (∀ (cfg : ARM_FaultConfig) (cpu : CpuState) (prior : ARM_FaultInfo_t),
        ARM_FaultOccurred (ARM_FaultSave_record cfg cpu prior) = 1) := by
  refine ⟨fun i m p l q => crcWloop_eq_CalcCRC32 l i m p q,
          fun cfg cpu prior => ?_⟩
  unfold ARM_FaultSave_record
  exact occurred_seal _

/-! ## Claim theorems: C2 and C9 (with helper lemmas) -/

theorem save_count (cfg : ARM_FaultConfig) (cpu : CpuState)
    (prior : ARM_FaultInfo_t) :
    (ARM_FaultSave_record cfg cpu prior).count = (prior.count + 1) % 4294967296 := by
  unfold ARM_FaultSave_record
  simp [stepRegs, stepInfo, stepCount]

theorem save_magic (cfg : ARM_FaultConfig) (cpu : CpuState)
    (prior : ARM_FaultInfo_t) :
    (ARM_FaultSave_record cfg cpu prior).magic_number = ARM_FAULT_MAGIC_NUMBER := by
  unfold ARM_FaultSave_record
  simp

/-- C2 (amended): the capture reads `count` before the wipe, zeroes the
whole record, and stores back the 32-bit increment, so the resulting
`count` is `(c + 1) mod 2 ^ 32` — equal to `c + 1` except when the counter
wraps at `2 ^ 32 - 1` (the `adds` instruction is a 32-bit addition). -/
theorem save_count_increment_mod (cfg : ARM_FaultConfig) (cpu : CpuState)
    (prior : ARM_FaultInfo_t) :
    (ARM_FaultSave_record cfg cpu prior).count = (prior.count + 1) % 4294967296 :=
  save_count cfg cpu prior

/-- C2 counterexample: at the prior count 2 ^ 32 - 1 the capture stores 0,
not `count + 1`, refuting the claim as stated. -/
theorem save_count_wraps_at_max :
    (ARM_FaultSave_record cfgBasic cpuBasic priorMaxCount).count ≠
      priorMaxCount.count + 1 := by
  decide

/-- C9 (amended): every capture stores the 32-bit increment of the count it
read at entry — strictly greater than the entry count except at the
wrap-around value 2 ^ 32 - 1 — and `ARM_FaultClear` always zeroes the
counter. -/
theorem count_monotonic (cfg : ARM_FaultConfig) (cpu : CpuState)
    (prior r : ARM_FaultInfo_t) (h : prior.count < 4294967295) :
    (ARM_FaultSave_record cfg cpu prior).count = (prior.count + 1) % 4294967296 ∧
    prior.count < (ARM_FaultSave_record cfg cpu prior).count ∧
    (ARM_FaultClear r).count = 0 := by
  refine ⟨save_count cfg cpu prior, ?_, rfl⟩
  rw [save_count cfg cpu prior]
  omega

theorem count_monotonic_witness :
    zeroRecord.count < 4294967295 ∧
      ((ARM_FaultSave_record cfgBasic cpuBasic zeroRecord).count =
          (zeroRecord.count + 1) % 4294967296 ∧
        zeroRecord.count < (ARM_FaultSave_record cfgBasic cpuBasic zeroRecord).count ∧
        (ARM_FaultClear zeroRecord).count = 0) :=
  ⟨by decide, count_monotonic cfgBasic cpuBasic zeroRecord zeroRecord (by decide)⟩

/-- C9 counterexample: at the wrap-around value the resulting count is 0,
which is not strictly greater than the count read at entry. -/
theorem count_not_increasing_at_wrap :
    ¬ priorMaxCount.count <
        (ARM_FaultSave_record cfgBasic cpuNsFault priorMaxCount).count := by
  decide

/-! ## Claim theorem: C5 -/

/-- C5: in the write sequence of `ARM_FaultSave` (one trace entry per store
section, starting with the full wipe), `crc32` is stored in the
next-to-last state and `magic_number` only in the final one, so every
intermediate state before the final `magic_number` store fails
`ARM_FaultOccurred`; the crc32 stored in the next-to-last state is already
the final one. -/
theorem trace_invalid_until_magic (cfg : ARM_FaultConfig) (cpu : CpuState)
    (prior : ARM_FaultInfo_t) (i : Nat) (h : i < 10) :
    ARM_FaultOccurred ((ARM_FaultSave_trace cfg cpu prior).getD i zeroRecord) = 0 ∧
    ((ARM_FaultSave_trace cfg cpu prior).getD 9 zeroRecord).crc32 =
      (ARM_FaultSave_record cfg cpu prior).crc32 ∧
    (ARM_FaultSave_trace cfg cpu prior).getD 10 zeroRecord =
      ARM_FaultSave_record cfg cpu prior := by
  refine ⟨?_, ?_, rfl⟩
  · apply occurred_eq_zero_of_magic_ne
    interval_cases i <;>
      · simp only [ARM_FaultSave_trace, List.getD_cons_succ, List.getD_cons_zero]
        simp [stepRegs, stepInfo, stepCount, zeroRecord, ARM_FAULT_MAGIC_NUMBER]
  · simp only [ARM_FaultSave_trace, ARM_FaultSave_record, List.getD_cons_succ,
      List.getD_cons_zero, stepMagic_crc32]

/-! ## Bits of the final `info` word -/

theorem bit_lt_two (b : Bool) : bit b < 2 := by cases b <;> decide

theorem infoVal_testBit_high (cfg : ARM_FaultConfig) (k : Nat) (hk : 20 ≤ k)
    (hmaj : cfg.ver_major < 256) (hmin : cfg.ver_minor < 256) :
    (infoVal cfg).testBit k = false := by
  have hpow : ∀ i j : Nat, i ≤ j → (2 : Nat) ^ i ≤ 2 ^ j :=
    fun i j h => Nat.pow_le_pow_right (by norm_num) h
  have hminb : cfg.ver_minor.testBit k = false :=
    Nat.testBit_eq_false_of_lt
      (lt_of_lt_of_le hmin (le_trans (by norm_num) (hpow 20 k hk)))
  have hmajb : cfg.ver_major.testBit (k - 8) = false :=
    Nat.testBit_eq_false_of_lt
      (lt_of_lt_of_le hmaj (le_trans (by norm_num) (hpow 12 (k - 8) (by omega))))
  have hb : ∀ (b : Bool) (j : Nat), 1 ≤ j → (bit b).testBit j = false := by
    intro b j hj
    exact Nat.testBit_eq_false_of_lt
      (lt_of_lt_of_le (bit_lt_two b) (le_trans (by norm_num) (hpow 1 j hj)))
  simp [infoVal, Nat.testBit_or, Nat.testBit_shiftLeft, hminb, hmajb,
        hb cfg.fault_regs_exist (k - 16) (by omega),
        hb cfg.arch_armv8x_m_main (k - 17) (by omega),
        hb cfg.tz_enabled (k - 18) (by omega),
        hb cfg.tz_secure (k - 19) (by omega)]

theorem save_info_testBit20 (cfg : ARM_FaultConfig) (cpu : CpuState)
    (prior : ARM_FaultInfo_t)
    (hmaj : cfg.ver_major < 256) (hmin : cfg.ver_minor < 256) :
    (ARM_FaultSave_record cfg cpu prior).info.testBit 20 =
      (cfg.tz_secure && !(resolveStack cfg cpu).2) := by
  have h20 : Nat.testBit 1048576 20 = true := by decide
  have h21 : Nat.testBit 2097152 20 = false := by decide
  have h22 : Nat.testBit 4194304 20 = false := by decide
  have h23 : Nat.testBit 8388608 20 = false := by decide
  have h24 : Nat.testBit 16777216 20 = false := by decide
  have h25 : Nat.testBit 33554432 20 = false := by decide
  have hiv := infoVal_testBit_high cfg 20 (by norm_num) hmaj hmin
  unfold ARM_FaultSave_record
  simp only [stepMagic_info, stepCrc_info, stepFaultRegs_info, stepLimitRegs_info,
    stepLiveContext_info, stepStateContext_info, stepTzFaultMode_info,
    stepRegs, stepInfo, stepCount]
  cases htz : cfg.tz_secure <;> cases hns : (resolveStack cfg cpu).2 <;>
    simp [apply_ite (fun x : Nat => x.testBit 20), Nat.testBit_or,
          h20, h21, h22, h23, h24, h25, hiv, htz, hns]

theorem save_info_testBit21 (cfg : ARM_FaultConfig) (cpu : CpuState)
    (prior : ARM_FaultInfo_t)
    (hmaj : cfg.ver_major < 256) (hmin : cfg.ver_minor < 256) :
    (ARM_FaultSave_record cfg cpu prior).info.testBit 21 =
      !(stackInfoInvalid cfg cpu (resolveStack cfg cpu).1 (resolveStack cfg cpu).2) := by
  have h20 : Nat.testBit 1048576 21 = false := by decide
  have h21 : Nat.testBit 2097152 21 = true := by decide
  have h22 : Nat.testBit 4194304 21 = false := by decide
  have h23 : Nat.testBit 8388608 21 = false := by decide
  have h24 : Nat.testBit 16777216 21 = false := by decide
  have h25 : Nat.testBit 33554432 21 = false := by decide
  have hiv := infoVal_testBit_high cfg 21 (by norm_num) hmaj hmin
  unfold ARM_FaultSave_record
  simp only [stepMagic_info, stepCrc_info, stepFaultRegs_info, stepLimitRegs_info,
    stepLiveContext_info, stepStateContext_info, stepTzFaultMode_info,
    stepRegs, stepInfo, stepCount]
  cases hinv : stackInfoInvalid cfg cpu (resolveStack cfg cpu).1 (resolveStack cfg cpu).2 <;>
    simp [apply_ite (fun x : Nat => x.testBit 21), Nat.testBit_or,
          h20, h21, h22, h23, h24, h25, hiv]

theorem save_info_testBit22 (cfg : ARM_FaultConfig) (cpu : CpuState)
    (prior : ARM_FaultInfo_t)
    (hmaj : cfg.ver_major < 256) (hmin : cfg.ver_minor < 256) :
    (ARM_FaultSave_record cfg cpu prior).info.testBit 22 =
      (cfg.arch_armv8x_m &&
        !(cfg.tz_secure && (resolveStack cfg cpu).2 && cfg.arch_armv8_m_base)) := by
  have h20 : Nat.testBit 1048576 22 = false := by decide
  have h21 : Nat.testBit 2097152 22 = false := by decide
  have h22 : Nat.testBit 4194304 22 = true := by decide
  have h23 : Nat.testBit 8388608 22 = false := by decide
  have h24 : Nat.testBit 16777216 22 = false := by decide
  have h25 : Nat.testBit 33554432 22 = false := by decide
  have hiv := infoVal_testBit_high cfg 22 (by norm_num) hmaj hmin
  unfold ARM_FaultSave_record
  simp only [stepMagic_info, stepCrc_info, stepFaultRegs_info, stepLimitRegs_info,
    stepLiveContext_info, stepStateContext_info, stepTzFaultMode_info,
    stepRegs, stepInfo, stepCount]
  cases h8 : cfg.arch_armv8x_m <;> cases htz : cfg.tz_secure <;>
    cases hns : (resolveStack cfg cpu).2 <;> cases hbase : cfg.arch_armv8_m_base <;>
      simp [apply_ite (fun x : Nat => x.testBit 22), Nat.testBit_or,
            h20, h21, h22, h23, h24, h25, hiv, h8, htz, hns, hbase]

theorem save_info_testBit23 (cfg : ARM_FaultConfig) (cpu : CpuState)
    (prior : ARM_FaultInfo_t)
    (hmaj : cfg.ver_major < 256) (hmin : cfg.ver_minor < 256) :
    (ARM_FaultSave_record cfg cpu prior).info.testBit 23 = cfg.fault_regs_exist := by
  have h20 : Nat.testBit 1048576 23 = false := by decide
  have h21 : Nat.testBit 2097152 23 = false := by decide
  have h22 : Nat.testBit 4194304 23 = false := by decide
  have h23 : Nat.testBit 8388608 23 = true := by decide
  have h24 : Nat.testBit 16777216 23 = false := by decide
  have h25 : Nat.testBit 33554432 23 = false := by decide
  have hiv := infoVal_testBit_high cfg 23 (by norm_num) hmaj hmin
  unfold ARM_FaultSave_record
  simp only [stepMagic_info, stepCrc_info, stepFaultRegs_info, stepLimitRegs_info,
    stepLiveContext_info, stepStateContext_info, stepTzFaultMode_info,
    stepRegs, stepInfo, stepCount]
  cases hfr : cfg.fault_regs_exist <;>
    simp [apply_ite (fun x : Nat => x.testBit 23), Nat.testBit_or,
          h20, h21, h22, h23, h24, h25, hiv, hfr]

/-! ## Claim theorems: C3 and C4 -/

/-- C3 (amended): for every exception-return code, bit [2] (SPSEL) = 0
selects the main stack pointer and bit [2] = 1 the process stack pointer;
on a secure-world build bit [6] (S) = 0 selects the non-secure alias of
that stack pointer and sets the non-secure-alias flag; and the
`tz_fault_mode` bit (bit 20) is OR'ed into `info` exactly when the build is
secure and the non-secure-alias flag is CLEAR — it marks a fault taken in
the Secure world, not the claim's "fault occurred in non-secure world". -/
theorem resolve_stack_decode (cfg : ARM_FaultConfig) (cpu : CpuState)
    (prior : ARM_FaultInfo_t)
    (hmaj : cfg.ver_major < 256) (hmin : cfg.ver_minor < 256) :
    ((cpu.lr.testBit 2 = false → ¬(cfg.tz_secure = true ∧ cpu.lr.testBit 6 = false) →
        resolveStack cfg cpu = (cpu.msp, false)) ∧
     (cpu.lr.testBit 2 = true → ¬(cfg.tz_secure = true ∧ cpu.lr.testBit 6 = false) →
        resolveStack cfg cpu = (cpu.psp, false)) ∧
     (cpu.lr.testBit 2 = false → cfg.tz_secure = true → cpu.lr.testBit 6 = false →
        resolveStack cfg cpu = (cpu.msp_ns, true)) ∧
     (cpu.lr.testBit 2 = true → cfg.tz_secure = true → cpu.lr.testBit 6 = false →
        resolveStack cfg cpu = (cpu.psp_ns, true))) ∧
    (ARM_FaultSave_record cfg cpu prior).info.testBit 20 =
      (cfg.tz_secure && !(resolveStack cfg cpu).2) := by
  refine ⟨⟨?_, ?_, ?_, ?_⟩, save_info_testBit20 cfg cpu prior hmaj hmin⟩
  · intro h1 h2
    by_cases htz : cfg.tz_secure = true
    · have h6 : cpu.lr.testBit 6 = true := by
        cases h6 : cpu.lr.testBit 6
        · exact absurd ⟨htz, h6⟩ h2
        · rfl
      simp [resolveStack, h1, htz, h6]
    · simp [resolveStack, h1, htz]
  · intro h1 h2
    by_cases htz : cfg.tz_secure = true
    · have h6 : cpu.lr.testBit 6 = true := by
        cases h6 : cpu.lr.testBit 6
        · exact absurd ⟨htz, h6⟩ h2
        · rfl
      simp [resolveStack, h1, htz, h6]
    · simp [resolveStack, h1, htz]
  · intro h1 htz h6
    simp [resolveStack, h1, htz, h6]
  · intro h1 htz h6
    simp [resolveStack, h1, htz, h6]

theorem resolve_stack_decode_witness :
    cfgSecure.ver_major < 256 ∧ cfgSecure.ver_minor < 256 ∧
      (ARM_FaultSave_record cfgSecure cpuNsFault zeroRecord).info.testBit 20 =
        (cfgSecure.tz_secure && !(resolveStack cfgSecure cpuNsFault).2) :=
  ⟨by decide, by decide,
   (resolve_stack_decode cfgSecure cpuNsFault zeroRecord (by decide) (by decide)).2⟩

/-- C3 counterexample: on a secure-world build with EXC_RETURN bit [6] = 0
(fault came from the non-secure world) the non-secure-alias flag is set,
yet bit 20 — the only security-state flag in `info` — is NOT OR'ed into
`info`; the code sets it exactly when that flag is clear. -/
theorem tz_fault_mode_bit_counterexample :
    (resolveStack cfgSecure cpuNsFault).2 = true ∧
    (ARM_FaultSave_record cfgSecure cpuNsFault zeroRecord).info.testBit 20 = false := by
  constructor
  · decide
  · decide

theorem save_fields_invalid (cfg : ARM_FaultConfig) (cpu : CpuState)
    (prior : ARM_FaultInfo_t)
    (hinv : stackInfoInvalid cfg cpu (resolveStack cfg cpu).1
      (resolveStack cfg cpu).2 = true) :
    ARM_FaultSave_record cfg cpu prior =
      stepMagic (stepCrc (stepFaultRegs cfg cpu (resolveStack cfg cpu).2
        (stepLimitRegs cfg cpu (resolveStack cfg cpu).2
          (stepLiveContext cfg cpu (resolveStack cfg cpu).2
            (stepTzFaultMode cfg (resolveStack cfg cpu).2
              (stepRegs cpu (stepInfo cfg (stepCount prior.count zeroRecord)))))))) := by
  simp only [ARM_FaultSave_record]
  rw [hinv, stepStateContext_invalid]

/-- C4: when the resolved stack pointer is zero or the (possibly aliased)
CFSR reports a stacking error, the capture skips the stacked-frame copy
(the state-context flag stays clear, the frame fields stay zero) but still
stores the live context (current xPSR, EXC_RETURN, both stack pointers),
the limit registers and fault-status registers when available, increments
the counter and completes the record with the magic number. -/
theorem invalid_stack_partial_capture (cfg : ARM_FaultConfig) (cpu : CpuState)
    (prior : ARM_FaultInfo_t)
    (hmaj : cfg.ver_major < 256) (hmin : cfg.ver_minor < 256)
    (hinv : stackInfoInvalid cfg cpu (resolveStack cfg cpu).1
      (resolveStack cfg cpu).2 = true) :
    (ARM_FaultSave_record cfg cpu prior).info.testBit 21 = false ∧
    (ARM_FaultSave_record cfg cpu prior).R0 = 0 ∧
    (ARM_FaultSave_record cfg cpu prior).R1 = 0 ∧
    (ARM_FaultSave_record cfg cpu prior).R2 = 0 ∧
    (ARM_FaultSave_record cfg cpu prior).R3 = 0 ∧
    (ARM_FaultSave_record cfg cpu prior).R12 = 0 ∧
    (ARM_FaultSave_record cfg cpu prior).LR = 0 ∧
    (ARM_FaultSave_record cfg cpu prior).ReturnAddress = 0 ∧
    (ARM_FaultSave_record cfg cpu prior).xPSR = 0 ∧
    (ARM_FaultSave_record cfg cpu prior).EXC_xPSR = cpu.xpsr ∧
    (ARM_FaultSave_record cfg cpu prior).EXC_RETURN = cpu.lr ∧
    (ARM_FaultSave_record cfg cpu prior).MSP =
      (if cfg.tz_secure ∧ (resolveStack cfg cpu).2 then cpu.msp_ns else cpu.msp) ∧
    (ARM_FaultSave_record cfg cpu prior).PSP =
      (if cfg.tz_secure ∧ (resolveStack cfg cpu).2 then cpu.psp_ns else cpu.psp) ∧
    (ARM_FaultSave_record cfg cpu prior).info.testBit 22 =
      (cfg.arch_armv8x_m &&
        !(cfg.tz_secure && (resolveStack cfg cpu).2 && cfg.arch_armv8_m_base)) ∧
    (cfg.fault_regs_exist = true →
      (ARM_FaultSave_record cfg cpu prior).info.testBit 23 = true ∧
      (ARM_FaultSave_record cfg cpu prior).CFSR =
        (if (resolveStack cfg cpu).2 then cpu.cfsr_ns else cpu.cfsr)) ∧
    (ARM_FaultSave_record cfg cpu prior).count = (prior.count + 1) % 4294967296 ∧
    (ARM_FaultSave_record cfg cpu prior).magic_number = ARM_FAULT_MAGIC_NUMBER := by
  have hb21 : (ARM_FaultSave_record cfg cpu prior).info.testBit 21 = false := by
    rw [save_info_testBit21 cfg cpu prior hmaj hmin, hinv]
    rfl
  have hb22 := save_info_testBit22 cfg cpu prior hmaj hmin
  have hcnt := save_count cfg cpu prior
  have hmag := save_magic cfg cpu prior
  have hfr : cfg.fault_regs_exist = true →
      (ARM_FaultSave_record cfg cpu prior).info.testBit 23 = true ∧
      (ARM_FaultSave_record cfg cpu prior).CFSR =
        (if (resolveStack cfg cpu).2 then cpu.cfsr_ns else cpu.cfsr) := by
    intro h
    refine ⟨(save_info_testBit23 cfg cpu prior hmaj hmin).trans (by rw [h]), ?_⟩
    rw [save_fields_invalid cfg cpu prior hinv]
    simp [stepFaultRegs_CFSR, h]
  rw [save_fields_invalid cfg cpu prior hinv] at hb21 hb22 hcnt hmag hfr ⊢
  refine ⟨hb21, ?_, ?_, ?_, ?_, ?_, ?_, ?_, ?_, ?_, ?_, ?_, ?_, hb22, hfr, hcnt,
    hmag⟩ <;>
    simp [stepLiveContext_EXC_xPSR, stepLiveContext_EXC_RETURN,
      stepLiveContext_MSP, stepLiveContext_PSP, stepRegs, stepInfo, stepCount,
      zeroRecord]

theorem invalid_stack_partial_capture_witness :
    cfgBasic.ver_major < 256 ∧ cfgBasic.ver_minor < 256 ∧
      stackInfoInvalid cfgBasic cpuZeroPsp (resolveStack cfgBasic cpuZeroPsp).1
        (resolveStack cfgBasic cpuZeroPsp).2 = true ∧
      (ARM_FaultSave_record cfgBasic cpuZeroPsp zeroRecord).info.testBit 21 = false ∧
      (ARM_FaultSave_record cfgBasic cpuZeroPsp zeroRecord).R0 = 0 ∧
      (ARM_FaultSave_record cfgBasic cpuZeroPsp zeroRecord).EXC_RETURN =
        cpuZeroPsp.lr ∧
      (ARM_FaultSave_record cfgBasic cpuZeroPsp zeroRecord).magic_number =
        ARM_FAULT_MAGIC_NUMBER := by
  have h := invalid_stack_partial_capture cfgBasic cpuZeroPsp zeroRecord
    (by decide) (by decide) (by decide)
  exact ⟨by decide, by decide, by decide, h.1, h.2.1, h.2.2.2.2.2.2.2.2.2.2.1,
    h.2.2.2.2.2.2.2.2.2.2.2.2.2.2.2.2⟩

theorem trace_invalid_until_magic_witness :
    (0 : Nat) < 10 ∧
      (ARM_FaultOccurred ((ARM_FaultSave_trace cfgBasic cpuBasic zeroRecord).getD 0
          zeroRecord) = 0 ∧
        ((ARM_FaultSave_trace cfgBasic cpuBasic zeroRecord).getD 9 zeroRecord).crc32 =
          (ARM_FaultSave_record cfgBasic cpuBasic zeroRecord).crc32 ∧
        (ARM_FaultSave_trace cfgBasic cpuBasic zeroRecord).getD 10 zeroRecord =
          ARM_FaultSave_record cfgBasic cpuBasic zeroRecord) :=
  ⟨by decide, trace_invalid_until_magic cfgBasic cpuBasic zeroRecord 0 (by decide)⟩


/-! ## C8: a single payload bit flip invalidates a valid record -/

theorem occurred_eq (r : ARM_FaultInfo_t) :
    ARM_FaultOccurred r =
      if r.magic_number = ARM_FAULT_MAGIC_NUMBER ∧ r.crc32 = recordCRC r then 1
      else 0 := by
  by_cases h1 : r.magic_number = ARM_FAULT_MAGIC_NUMBER <;>
    by_cases h2 : r.crc32 = recordCRC r <;>
      simp [ARM_FaultOccurred, h1, h2]

theorem occurred_one_iff (r : ARM_FaultInfo_t) :
    ARM_FaultOccurred r = 1 ↔
      r.magic_number = ARM_FAULT_MAGIC_NUMBER ∧ r.crc32 = recordCRC r := by
  rw [occurred_eq]
  split_ifs with h <;> simp [h]

theorem setPayloadWord_magic (r : ARM_FaultInfo_t) (w v : Nat) :
    (setPayloadWord r w v).magic_number = r.magic_number := by
  unfold setPayloadWord
  split <;> rfl

theorem setPayloadWord_crc32 (r : ARM_FaultInfo_t) (w v : Nat) :
    (setPayloadWord r w v).crc32 = r.crc32 := by
  unfold setPayloadWord
  split <;> rfl

theorem payloadWords_set (r : ARM_FaultInfo_t) (w v : Nat) (hw : w < 34) :
    payloadWords (setPayloadWord r w v) = (payloadWords r).set w v := by
  interval_cases w <;> (cases r; rfl)

/-! ### Xor distributes over the bit manipulations of the CRC engine -/

theorem xor_shiftRight_distrib (a b s : Nat) :
    (a ^^^ b) >>> s = (a >>> s) ^^^ (b >>> s) := by
  apply Nat.eq_of_testBit_eq
  intro i
  simp [Nat.testBit_shiftRight, Nat.testBit_xor]

theorem xor_shiftLeft_distrib (a b s : Nat) :
    (a ^^^ b) <<< s = (a <<< s) ^^^ (b <<< s) := by
  apply Nat.eq_of_testBit_eq
  intro i
  simp only [Nat.testBit_shiftLeft, Nat.testBit_xor]
  by_cases h : s ≤ i <;> simp [h]

theorem xor_mod_two_pow (a b n : Nat) :
    (a ^^^ b) % 2 ^ n = (a % 2 ^ n) ^^^ (b % 2 ^ n) := by
  apply Nat.eq_of_testBit_eq
  intro i
  simp only [Nat.testBit_mod_two_pow, Nat.testBit_xor]
  by_cases h : i < n <;> simp [h]

theorem xor_mod256 (a b : Nat) : (a ^^^ b) % 256 = (a % 256) ^^^ (b % 256) := by
  have h := xor_mod_two_pow a b 8
  norm_num at h
  exact h

theorem nat_xor_left_comm (a b c : Nat) : a ^^^ (b ^^^ c) = b ^^^ (a ^^^ c) := by
  rw [← Nat.xor_assoc, Nat.xor_comm a b, Nat.xor_assoc]

theorem wordBytes_xor (v u : Nat) :
    wordBytes (v ^^^ u) = List.zipWith (· ^^^ ·) (wordBytes v) (wordBytes u) := by
  simp [wordBytes, List.zipWith, xor_shiftRight_distrib, xor_mod256]

theorem bytesOfWords_cons (w : Nat) (ws : List Nat) :
    bytesOfWords (w :: ws) = wordBytes w ++ bytesOfWords ws := rfl

theorem bytesOfWords_append (l1 l2 : List Nat) :
    bytesOfWords (l1 ++ l2) = bytesOfWords l1 ++ bytesOfWords l2 := by
  induction l1 with
  | nil => rfl
  | cons w ws ih => simp [bytesOfWords_cons, ih, List.append_assoc]

theorem bytesOfWords_length (l : List Nat) :
    (bytesOfWords l).length = 4 * l.length := by
  induction l with
  | nil => rfl
  | cons w ws ih => simp [bytesOfWords_cons, wordBytes, ih]; omega

theorem zipWith_xor_replicate_zero (l : List Nat) (n : Nat) (h : l.length = n) :
    List.zipWith (· ^^^ ·) l (List.replicate n 0) = l := by
  induction l generalizing n with
  | nil => simp
  | cons x xs ih =>
      cases n with
      | zero => simp at h
      | succ m => simp [List.replicate_succ, ih m (by simpa using h)]

theorem eVec_length (w j : Nat) (hw : w < 34) : (eVec w j).length = 136 := by
  simp [eVec, wordBytes]
  omega

theorem take_getD_drop (l : List Nat) (n : Nat) (h : n < l.length) :
    l = l.take n ++ l.getD n 0 :: l.drop (n + 1) := by
  conv_lhs => rw [← List.take_append_drop n l]
  rw [List.drop_eq_getElem_cons h]
  congr 2
  simp [List.getD_eq_getElem?_getD, List.getElem?_eq_getElem h]

theorem payloadBytes_flip (r : ARM_FaultInfo_t) (w j : Nat) (hw : w < 34) :
    payloadBytes (flipPayloadBit r w j) =
      List.zipWith (· ^^^ ·) (payloadBytes r) (eVec w j) := by
  have hlen : (payloadWords r).length = 34 := rfl
  have hw' : w < (payloadWords r).length := by rw [hlen]; exact hw
  have hsplit := take_getD_drop (payloadWords r) w hw'
  have htklen : ((payloadWords r).take w).length = w := by
    simp [List.length_take]
    omega
  have hdplen : ((payloadWords r).drop (w + 1)).length = 33 - w := by
    simp [List.length_drop, hlen]
  show payloadBytes (setPayloadWord r w ((payloadWords r).getD w 0 ^^^ 2 ^ j)) = _
  unfold payloadBytes
  rw [payloadWords_set r _ _ hw, List.set_eq_take_cons_drop _ hw']
  conv_rhs => rw [hsplit]
  rw [bytesOfWords_append, bytesOfWords_cons, bytesOfWords_append, bytesOfWords_cons]
  unfold eVec
  rw [List.zipWith_append _ _ _ _ _
        (by rw [bytesOfWords_length, htklen, List.length_replicate])]
  rw [zipWith_xor_replicate_zero _ _ (by rw [bytesOfWords_length, htklen])]
  have hmid : List.zipWith (· ^^^ ·)
      (wordBytes ((payloadWords r).getD w 0) ++ bytesOfWords ((payloadWords r).drop (w + 1)))
      (wordBytes (2 ^ j) ++ List.replicate (4 * (33 - w)) 0) =
      wordBytes ((payloadWords r).getD w 0 ^^^ 2 ^ j) ++
        bytesOfWords ((payloadWords r).drop (w + 1)) := by
    rw [List.zipWith_append _ _ _ _ _ (by simp [wordBytes]), ← wordBytes_xor,
        zipWith_xor_replicate_zero _ _ (by rw [bytesOfWords_length, hdplen])]
  rw [hmid]

/-! ### Xor-linearity of the CRC engine -/

theorem crcShift_xor (a b polynom : Nat) :
    crcShift (a ^^^ b) polynom = crcShift a polynom ^^^ crcShift b polynom := by
  have h32 : (4294967296 : Nat) = 2 ^ 32 := by norm_num
  rw [crcShift_eq, crcShift_eq, crcShift_eq]
  have hsh : ((a ^^^ b) <<< 1) % 4294967296 =
      ((a <<< 1) % 4294967296) ^^^ ((b <<< 1) % 4294967296) := by
    rw [xor_shiftLeft_distrib, h32, xor_mod_two_pow]
  have htb : (a ^^^ b).testBit 31 = xor (a.testBit 31) (b.testBit 31) := by
    simp [Nat.testBit_xor]
  rw [hsh, htb]
  cases ha : a.testBit 31 <;> cases hb : b.testBit 31 <;>
    simp [Nat.xor_assoc, Nat.xor_comm, nat_xor_left_comm, Nat.xor_self,
      Nat.xor_zero, Nat.zero_xor, Nat.xor_cancel_left]

theorem crcBits_xor (n : Nat) :
    ∀ a b polynom : Nat,
      crcBits n (a ^^^ b) polynom = crcBits n a polynom ^^^ crcBits n b polynom := by
  induction n with
  | zero => intro a b p; rfl
  | succ n ih =>
      intro a b p
      simp only [crcBits]
      rw [crcShift_xor, ih]

theorem crcL_xor (polynom : Nat) :
    ∀ d e : List Nat, d.length = e.length →
      ∀ a b : Nat,
        crcL (a ^^^ b) (List.zipWith (· ^^^ ·) d e) polynom =
          crcL a d polynom ^^^ crcL b e polynom := by
  intro d
  induction d with
  | nil =>
      intro e he a b
      cases e with
      | nil => rfl
      | cons e0 e' => simp at he
  | cons d0 d' ih =>
      intro e he a b
      cases e with
      | nil => simp at he
      | cons e0 e' =>
          simp only [List.zipWith_cons_cons, crcL]
          have hbyte : (a ^^^ b) ^^^ ((d0 ^^^ e0) % 256) <<< 24 =
              (a ^^^ (d0 % 256) <<< 24) ^^^ (b ^^^ (e0 % 256) <<< 24) := by
            have h256 : (256 : Nat) = 2 ^ 8 := by norm_num
            rw [h256, xor_mod_two_pow, xor_shiftLeft_distrib]
            simp [Nat.xor_assoc, Nat.xor_comm, nat_xor_left_comm]
          rw [hbyte, crcBits_xor, ih e' (by simpa using he)]

/-! ### The CRC of a single-bit error vector is nonzero -/

theorem crcShift_zero (polynom : Nat) : crcShift 0 polynom = 0 := by
  simp [crcShift]

theorem crcBits_zero (n polynom : Nat) : crcBits n 0 polynom = 0 := by
  induction n <;> simp [crcBits, crcShift_zero, *]

theorem crcShift_lt (x polynom : Nat) (hp : polynom < 4294967296)
    (_ : x < 4294967296) : crcShift x polynom < 4294967296 := by
  have h32 : (4294967296 : Nat) = 2 ^ 32 := by norm_num
  unfold crcShift
  have hm : (x <<< 1) % 4294967296 < 4294967296 := Nat.mod_lt _ (by norm_num)
  split_ifs
  · rw [h32] at hm hp ⊢
    exact Nat.xor_lt_two_pow hm hp
  · exact hm

theorem crcShift_ne_zero (x polynom : Nat) (hodd : polynom % 2 = 1)
    (hx32 : x < 4294967296) (hx : x ≠ 0) : crcShift x polynom ≠ 0 := by
  rw [crcShift_eq]
  split_ifs with h
  · intro hc
    have heq : (x <<< 1) % 4294967296 = polynom := Nat.xor_eq_zero.mp hc
    have heven : (x <<< 1) % 4294967296 % 2 = 0 := by
      rw [Nat.shiftLeft_eq]
      omega
    omega
  · intro hc
    rw [Nat.shiftLeft_eq] at hc
    have hx31 : x ≠ 2147483648 := by
      intro he
      rw [he] at h
      exact h (by decide)
    have : x * 2 ^ 1 % 4294967296 = 0 := hc
    omega

theorem crcBits_pos (polynom : Nat) (hodd : polynom % 2 = 1)
    (hp : polynom < 4294967296) (n : Nat) :
    ∀ x, x ≠ 0 → x < 4294967296 →
      crcBits n x polynom ≠ 0 ∧ crcBits n x polynom < 4294967296 := by
  induction n with
  | zero => intro x hx hx32; exact ⟨hx, hx32⟩
  | succ n ih =>
      intro x hx hx32
      simp only [crcBits]
      exact ih _ (crcShift_ne_zero x polynom hodd hx32 hx)
        (crcShift_lt x polynom hp hx32)

theorem crcL_leading_zeros (polynom a : Nat) (l : List Nat) :
    crcL 0 (List.replicate a 0 ++ l) polynom = crcL 0 l polynom := by
  induction a with
  | zero => rfl
  | succ m ih =>
      simp only [List.replicate_succ, List.cons_append, crcL]
      simpa [crcBits_zero] using ih

theorem crcL_nonzero_zeros (polynom : Nat) (hodd : polynom % 2 = 1)
    (hp : polynom < 4294967296) (m : Nat) :
    ∀ c, c ≠ 0 → c < 4294967296 → crcL c (List.replicate m 0) polynom ≠ 0 := by
  induction m with
  | zero => intro c hc _; exact hc
  | succ k ih =>
      intro c hc hc32
      simp only [List.replicate_succ, crcL]
      have hstep : (c ^^^ (0 % 256) <<< 24) = c := by simp
      rw [hstep]
      have := crcBits_pos polynom hodd hp 8 c hc hc32
      exact ih _ this.1 this.2

theorem crcL_single_byte_ne_zero (polynom : Nat) (hodd : polynom % 2 = 1)
    (hp : polynom < 4294967296) (a m b : Nat) (hb1 : b ≠ 0) (hb2 : b < 256) :
    crcL 0 (List.replicate a 0 ++ b :: List.replicate m 0) polynom ≠ 0 := by
  rw [crcL_leading_zeros]
  simp only [crcL]
  have hb0 : (0 ^^^ (b % 256) <<< 24) = b <<< 24 := by
    simp [Nat.mod_eq_of_lt hb2]
  rw [hb0]
  have hbne : b <<< 24 ≠ 0 := by
    rw [Nat.shiftLeft_eq]
    positivity
  have hblt : b <<< 24 < 4294967296 := by
    have := byte_shift24_lt b
    rwa [Nat.mod_eq_of_lt hb2] at this
  have := crcBits_pos polynom hodd hp 8 _ hbne hblt
  exact crcL_nonzero_zeros polynom hodd hp m _ this.1 this.2

theorem wordBytes_two_pow (j : Nat) (hj : j < 32) :
    wordBytes (2 ^ j) =
      List.replicate (j / 8) 0 ++ 2 ^ (j % 8) :: List.replicate (3 - j / 8) 0 := by
  interval_cases j <;> decide

theorem crcL_eVec_ne_zero (w j : Nat) (_hw : w < 34) (hj : j < 32) :
    crcL 0 (eVec w j) ARM_FAULT_CRC32_POLYNOM ≠ 0 := by
  have hodd : ARM_FAULT_CRC32_POLYNOM % 2 = 1 := by decide
  have hp : ARM_FAULT_CRC32_POLYNOM < 4294967296 := by decide
  have hshape : eVec w j =
      List.replicate (4 * w + j / 8) 0 ++
        2 ^ (j % 8) :: List.replicate ((3 - j / 8) + 4 * (33 - w)) 0 := by
    unfold eVec
    rw [wordBytes_two_pow j hj, List.append_assoc, List.cons_append,
      List.append_replicate_replicate, ← List.append_assoc,
      List.append_replicate_replicate]
  rw [hshape]
  have hmod : j % 8 < 8 := Nat.mod_lt _ (by norm_num)
  apply crcL_single_byte_ne_zero ARM_FAULT_CRC32_POLYNOM hodd hp
  · exact (Nat.two_pow_pos _).ne'
  · have h1 : 2 ^ (j % 8) ≤ 2 ^ 7 := Nat.pow_le_pow_right (by norm_num) (by omega)
    omega

/-! ### Assembly of the C8 theorems -/

theorem recordCRC_eq_crcL (r : ARM_FaultInfo_t) :
    recordCRC r =
      crcL ARM_FAULT_CRC32_INIT_VAL (payloadBytes r) ARM_FAULT_CRC32_POLYNOM := by
  unfold recordCRC
  have hl : payloadLen = (payloadBytes r).length := rfl
  rw [hl]
  exact CalcCRC32_eq_crcL _ _ _ _ _ (by intro k hk; simp)

theorem xor_ne_self (a n : Nat) (h : n ≠ 0) : a ^^^ n ≠ a := by
  intro hc
  apply h
  have h2 : a ^^^ (a ^^^ n) = a ^^^ a := congrArg (fun z => a ^^^ z) hc
  simpa [← Nat.xor_assoc, Nat.xor_self, Nat.zero_xor] using h2

theorem flip_flip_zero (r : ARM_FaultInfo_t) :
    flipPayloadBit (flipPayloadBit r 0 0) 0 0 = r := by
  cases r
  simp [flipPayloadBit, setPayloadWord, payloadWords, Nat.xor_assoc,
    Nat.xor_self, Nat.xor_zero]

/-- C8 counterexample: the claim quantifies over every record state, but on
the corrupted record `corruptedZero` (a valid record with one payload bit
already flipped) flipping that same bit yields a record on which
`ARM_FaultOccurred` returns 1, not 0. -/
theorem flip_bit_makes_valid_counterexample :
    ARM_FaultOccurred (flipPayloadBit corruptedZero 0 0) = 1 := by
  have h : flipPayloadBit corruptedZero 0 0 = sealedZero := flip_flip_zero sealedZero
  rw [h]
  exact occurred_seal zeroRecord

/-- C8 (amended): for every record state on which `ARM_FaultOccurred`
returns 1, flipping any single bit anywhere in the payload range (any of
the 34 words covered by the CRC, any of its 32 bits) makes
`ARM_FaultOccurred` return 0: the CRC of the flipped payload differs from
the stored `crc32`. -/
theorem flip_payload_bit_invalidates (r : ARM_FaultInfo_t) (w j : Nat)
    (hw : w < 34) (hj : j < 32) (hocc : ARM_FaultOccurred r = 1) :
    ARM_FaultOccurred (flipPayloadBit r w j) = 0 := by
  obtain ⟨hm, hc⟩ := (occurred_one_iff r).mp hocc
  have hlen : (payloadBytes r).length = (eVec w j).length := by
    rw [payloadBytes_length, eVec_length w j hw]
    rfl
  have hrc : recordCRC (flipPayloadBit r w j) =
      recordCRC r ^^^ crcL 0 (eVec w j) ARM_FAULT_CRC32_POLYNOM := by
    rw [recordCRC_eq_crcL, recordCRC_eq_crcL, payloadBytes_flip r w j hw]
    have hx := crcL_xor ARM_FAULT_CRC32_POLYNOM (payloadBytes r) (eVec w j) hlen
      ARM_FAULT_CRC32_INIT_VAL 0
    simpa [Nat.xor_zero] using hx
  have hcrcne : (flipPayloadBit r w j).crc32 ≠ recordCRC (flipPayloadBit r w j) := by
    show (setPayloadWord r w _).crc32 ≠ _
    rw [setPayloadWord_crc32, hc, hrc]
    exact fun hcontra =>
      xor_ne_self (recordCRC r) _ (crcL_eVec_ne_zero w j hw hj) hcontra.symm
  rw [occurred_eq]
  exact if_neg (fun hand => hcrcne hand.2)

theorem flip_payload_bit_invalidates_witness :
    (0 : Nat) < 34 ∧ (0 : Nat) < 32 ∧ ARM_FaultOccurred sealedZero = 1 ∧
      ARM_FaultOccurred (flipPayloadBit sealedZero 0 0) = 0 :=
  ⟨by decide, by decide, occurred_seal zeroRecord,
   flip_payload_bit_invalidates sealedZero 0 0 (by decide) (by decide)
     (occurred_seal zeroRecord)⟩

end ARMFaultStorage
